import Mathlib

set_option maxRecDepth 1000000
set_option maxHeartbeats 4000000

/-!
Shallow embedding of src/questions.py (prompt assembly pipeline).

The Python module consists of: a constant BASE_URL; a resource loader
get_questions that opens all_questions.json and JSON-parses it, with a
bare except clause returning the empty list; a module-level
questions = get_questions(); a static catalog list questions_generator;
and three template renderers (question_format, validation_format,
question_generator), each a Python f-string with exactly one interpolated
parameter (question_format and validation_format interpolate their
parameter once, question_generator interpolates target_file at fifteen
labeled slots).  The scaffold texts are embedded verbatim below as lists
of consecutive pieces whose concatenation is the source text; braces,
quotes, apostrophes and hyphens of the source appear as escape sequences.
Long texts are kept in pieces so that all proofs evaluate within bounded
recursion depth.
-/

/-- Boolean test that the pattern (first argument) is an initial run of the text (second argument), character by character. -/
def leadsWith : List Char → List Char → Bool
  | [], _ => true
  | _ :: _, [] => false
  | a :: as, b :: bs => a == b && leadsWith as bs

/-- Boolean substring test: the pattern occurs contiguously somewhere in the text. -/
def appearsIn (pat : List Char) : List Char → Bool
  | [] => leadsWith pat []
  | c :: rest => leadsWith pat (c :: rest) || appearsIn pat rest

/-- Number of positions of the text at which the pattern starts an occurrence; the position at the very end of the text also counts when the pattern occurs there (only possible for the empty pattern). -/
def occCount (pat : List Char) : List Char → Nat
  | [] => cond (leadsWith pat []) 1 0
  | c :: rest => cond (leadsWith pat (c :: rest)) 1 0 + occCount pat rest

/-- Concatenation of a list of strings, in order. -/
def concatStr (l : List String) : String := l.foldr (fun s acc => s ++ acc) ""

/-- Concatenation of a list of character lists, in order. -/
def chainCat (ps : List (List Char)) : List Char := ps.foldr (fun x acc => x ++ acc) []

/-- Chunked certificate that a pattern has no occurrence in the concatenation of a list of chunks: no occurrence inside a chunk extended by the next pattern-length-minus-one characters, for every chunk. -/
def noOccAcross (p : List Char) : List (List Char) → Bool
  | [] => true
  | x :: rest => !(appearsIn p (x ++ (chainCat rest).take (p.length - 1))) && noOccAcross p rest
/-- Scaffold text of question_format before its single interpolation slot, as a list of consecutive pieces whose concatenation is the source text (src/questions.py, f-string of question_format). -/
def qfAps : List String := [
  "\nYou are an **Elite Distributed Ledger Security Auditor** specializing in \nDAG\x2dbased consensus systems, JavaScript VM sandboxing, cryptographic \nprotocols, and decentralized network architectures.  Your task is to analyze \nthe **Obyte (Byteball) Protocol** codebase—a DAG\x2dbased distributed ledger \nfeaturing witness\x2dbased consensus, Autonomous Agents (AA smart contracts), \ndeterministic unit validation, P2P network synchronization, multi\x2dsignature \nwallets, and oracle integration—through the lens of this single security \nquestion: \n\n**Security Question (scope for this run):** "
]

/-- Scaffold text of question_format after its single interpolation slot, as a list of consecutive pieces whose concatenation is the source text; each occurrence of the no-vulnerability sentinel phrase is kept as a piece of its own (src/questions.py, f-string of question_format). -/
def qfBps : List String := [
  "\n\n**OBYTE PROTOCOL CONTEXT:**\n\n**Architecture**:  Obyte uses a Directed Acyclic Graph (DAG) where each \ntransaction unit references multiple parent units.  Consensus is achieved \nthrough a witness list (12 trusted nodes per unit) that posts regular \nheartbeat transactions.  The main chain (MC) is determined by witness \nvoting, and units become stable when witnessed by majority (7+ of 12) \nwitnesses at higher levels.  Autonomous Agents (AAs) execute deterministic \nJavaScript\x2dlike formulas with sandboxed state access.  The protocol \nfeatures native and custom assets (divisible/indivisible), multi\x2dsig \naddresses, private payments, oracles, and light client support via \nwitness proofs.\n\n**Key Components**: \n\n* **DAG & Validation Layer**: `validation.js` (116KB \x2d unit structure, \n  signatures, balance checks), `storage.js` (98KB \x2d database operations), \n  `object_hash.js` (deterministic hashing), `graph. js` (DAG traversal), \n  `inputs.js` (double\x2dspend prevention)\n\n* **Consensus Layer**: `main_chain.js` (77KB \x2d MC index determination, \n  stability points), `witness_proof.js` (light client proofs), \n  `initial_votes.js`, `my_witnesses.js` (witness list management)\n\n* **Network Layer**:  `network.js` (156KB \x2d P2P protocol, unit \n  broadcasting), `catchup.js` (sync protocol), `light. js` (34KB \x2d light \n  client), `device.js` (38KB \x2d device pairing)\n\n* **AA Execution Engine**: `formula/evaluation.js` (106KB \x2d formula \n  execution sandbox), `formula/validation.js` (46KB \x2d syntax valid",
  "ation), \n  `aa_composer.js` (71KB \x2d AA transaction builder), `aa_validation.js` \n  (28KB \x2d AA unit validation)\n\n* **Transaction Layer**: `composer.js` (38KB \x2d tx composition), \n  `parent_composer.js` (30KB \x2d parent selection), `wallet. js` (122KB \x2d \n  wallet operations), `writer.js` (34KB \x2d unit writing)\n\n* **Asset Layer**: `divisible_asset.js`, `indivisible_asset.js` (asset \n  transfers, issuance), `definition. js` (53KB \x2d address definitions, \n  multi\x2dsig)\n\n* **Signature & Auth**:  `signature.js` (ECDSA verification), \n  `definition. js` (recursive definition evaluation)\n\n* **Oracle & Data**: `data_feeds.js` (oracle data handling), \n  `arbiter_contract.js` (arbiter logic)\n\n* **Database**: `sqlite_pool.js`, `mysql_pool.js`, `joint_storage.js`, \n  `kvstore.js` (AA state storage)\n\n**Files in Scope**:  All 77 JavaScript files in the `byteball/ocore` \nrepository (core files, formula directory, tools directory). **Test files** \nunder `./test/` are **out of scope** for vulnerability analysis but may be \nreferenced for understanding expected behavior.\n\n**CRITICAL INVARIANTS (derived from protocol specification and code):**\n\n1. **Main Chain Monotonicity**: MCI (Main Chain Index) assignments must be \n   strictly increasing along any path in the DAG; no unit can have MCI ≤ \n   any descendant\x27s MCI.  Non\x2ddeterministic MC selection causes permanent \n   chain splits.\n\n2. **Witness Compatibility**: Every unit must share ≥1 witness with all \n   ancestor units.  Incompatible witness lists c",
  "ause permanent network \n   partition for all descendants.\n\n3. **Stability Irreversibility**: Once a unit reaches stable MCI (witnessed \n   by 7+ of 12 witnesses), its content, position, and last ball are \n   immutable. Reverting stable units breaks historical integrity.\n\n4. **Last Ball Consistency**: The last ball chain (hash chain of stable \n   units) must be unbroken. Forking or skipping last balls corrupts the \n   immutable history layer.\n\n5. **Balance Conservation**: For every asset in a unit, \n   `Σ(input_amounts) ≥ Σ(output_amounts) + fees`. No inflation/deflation \n   except authorized asset issuance.  Integer overflow/underflow breaks this. \n\n6. **Double\x2dSpend Prevention**: Each output (unit_hash, message_index, \n   output_index) can be spent at most once. Database must enforce unique \n   constraint; race conditions or validation gaps allow double\x2dspends.\n\n7. **Input Validity**: All inputs must reference existing unspent outputs \n   owned by unit authors. Spending non\x2dexistent or already\x2dspent outputs \n   violates balance integrity.\n\n8. **Asset Cap Enforcement**:  Divisible asset issuance cannot exceed \n   `max_cap`. Total circulating supply must be tracked correctly; overflow \n   or missing checks mint unlimited tokens.\n\n9. **Indivisible Serial Uniqueness**: Each indivisible asset serial must be \n   issued exactly once. Duplicate serials break NFT uniqueness guarantees.\n\n10. **AA Deterministic Execution**:  Autonomous Agent formula evaluation must \n    produce identic",
  "al results on all nodes for same input state. Non\x2d\n    determinism (random, timestamps, external I/O) causes state divergence \n    and chain splits.\n\n11. **AA State Consistency**: AA state variable updates must be atomic.  \n    Race conditions or partial commits cause nodes to hold different state, \n    leading to validation disagreements.\n\n12. **Bounce Correctness**: Failed AA executions must refund inputs minus \n    bounce fees via bounce response. Incorrect refund amounts or recipients \n    cause fund loss.\n\n13. **Formula Sandbox Isolation**: AA formula execution must not access \n    filesystem, network, or host JavaScript APIs. Sandbox escapes allow \n    arbitrary code execution on validator nodes.\n\n14. **Signature Binding**: Each author\x27s signature must cover the exact \n    unit hash (including all messages, parents, witnesses). Signature \n    malleability or hash manipulation allows unauthorized spending.\n\n15. **Definition Evaluation Integrity**: Address definitions (multi\x2dsig, \n    weighted, or/and logic) must evaluate correctly. Logic errors allow \n    unauthorized spending or signature bypass.\n\n16. **Parent Validity**: All parent units must exist, be valid, and form a \n    DAG (no cycles). Invalid parents or cycles break DAG structure and \n    consensus.\n\n17. **Witness Level Correctness**: Witness Level (WL) must be the minimum \n    level of witness\x2dauthored ancestors. Incorrect WL breaks MC \n    determination. \n\n18. **Fee Sufficiency**: Unit fees must cover header +",
  " payload costs. \n    Under\x2dpaid units accepted into DAG allow spam attacks.\n\n19. **Catchup Completeness**: Syncing nodes must retrieve all units on MC \n    up to last stable point without gaps. Missing units cause validation \n    failures and permanent desync.\n\n20. **Database Referential Integrity**: Foreign keys (unit → parents, \n    messages → units, inputs → outputs) must be enforced. Orphaned records \n    corrupt DAG structure.\n\n21. **Transaction Atomicity**: Multi\x2dstep operations (storing unit + \n    updating balances + spending outputs) must be atomic. Partial commits \n    cause inconsistent state.\n\n22. **Timestamp Validity**: Unit timestamps must be reasonable (not far\x2d\n    future or far\x2dpast relative to parent timestamps and MC). Invalid \n    timestamps disrupt ordering and MC selection.\n\n23. **Light Client Proof Integrity**:  Witness proofs must be unforgeable.  \n    Fake proofs trick light clients into accepting invalid history.\n\n24. **Network Unit Propagation**: Valid units must propagate to all peers. \n    Selective censorship of witness units causes network partitions.\n\n**YOUR INVESTIGATION MISSION:**\n\nAccept the premise of the security question and explore **all** relevant \ncode paths, data structures, state transitions, and cross\x2dfile \ninteractions related to it. Do not settle for surface observations—trace \nexecution flows through validation → storage → network → consensus layers. \n\nYour goal is to find **one** concrete, exploitable vulnerability tied to \nthe ",
  "question that an unprivileged user, malicious peer, MEV searcher, \nmalicious AA, or compromised oracle could exploit. Focus on: \n\n* Business\x2dlogic flaws (incorrect validation, missing checks)\n* Mathematical errors (overflow, underflow, precision loss, rounding)\n* Race conditions (concurrent unit submission, database access)\n* Non\x2ddeterministic behavior (timestamp comparisons, floating\x2dpoint math)\n* Signature bypasses (malleability, hash collisions)\n* DAG structure corruption (invalid parents, cycles, witness incompatibility)\n* State divergence (AA execution differences across nodes)\n* Database integrity violations (orphaned records, constraint bypasses)\n* Network attacks (DoS, unit flooding, catchup poisoning)\n\n**ATTACK SURFACE EXPLORATION:**\n\n1. **Unit Validation Edge Cases** (`validation.js`, `inputs.js`):\n   \x2d Units with maximum parents (15) or witnesses (12)\n   \x2d Zero outputs or zero\x2dvalue payments\n   \x2d Negative balances or integer overflow in input/output sums\n   \x2d Conflicting messages in same unit (e.g., double asset definition)\n   \x2d Timestamps far in past/future\n   \x2d Invalid signature encoding or s\x2dvalue malleability\n   \x2d Input referencing non\x2dexistent or already\x2dspent output\n   \x2d Author addresses not matching signature public keys\n\n2. **Main Chain Consensus** (`main_chain.js`, `witness_proof.js`):\n   \x2d Non\x2ddeterministic comparison operations\n   \x2d Floating\x2dpoint arithmetic in MC index calculations\n   \x2d Concurrent updates to last stable MCI from multiple threads\n   \x2d Wi",
  "tness level miscalculation for complex parent structures\n   \x2d Last ball forking when two units at same MCI reference previous last ball\n   \x2d Stability point disagreement due to witness unit censorship\n\n3. **AA Execution Sandbox** (`formula/evaluation.js`, `aa_composer.js`):\n   \x2d Prototype pollution (`Object.prototype.x \x3d malicious`)\n   \x2d Constructor injection (`\x7b\x7d. constructor.constructor(\x27malicious code\x27)()`)\n   \x2d `eval()` or `Function()` usage in formula evaluation\n   \x2d Access to Node. js globals (`require`, `process`, `fs`, `__dirname`)\n   \x2d Non\x2ddeterministic functions (`Math.random()`, `Date.now()`)\n   \x2d Infinite loops or exponential complexity (no gas limits)\n   \x2d State variable read/write race conditions during concurrent triggers\n   \x2d Reentrancy via secondary triggers calling back into primary AA\n   \x2d Bounce response amount miscalculation (rounding errors)\n   \x2d Integer overflow in formula arithmetic (`BigInt` handling)\n\n4. **Asset Operations** (`divisible_asset.js`, `indivisible_asset.js`):\n   \x2d Issuing asset multiple times to exceed `max_cap`\n   \x2d Duplicate serial numbers for indivisible assets\n   \x2d Transfer restrictions bypass (`cosigned_by_definer` missing)\n   \x2d Decimal precision loss in divisible asset calculations\n   \x2d Negative asset amounts or overflow in balance updates\n\n5. **Network & Sync** (`network.js`, `catchup.js`, `light.js`):\n   \x2d Unit flooding DoS (100k+ units/second overwhelming validation queue)\n   \x2d Malicious parent selection causing validation bottl",
  "enecks\n   \x2d Catchup protocol sending incorrect or skipped units\n   \x2d Light client accepting forged witness proofs\n   \x2d Peer censorship of witness units causing partition\n   \x2d WebSocket message injection or malformed JSON payloads\n\n6. **Transaction Composition** (`composer.js`, `parent_composer.js`, `wallet.js`):\n   \x2d Input selection choosing already\x2dspent outputs\n   \x2d Fee calculation underestimating unit size\n   \x2d Change output rounding errors causing value loss\n   \x2d Parent selection bias delaying confirmation\n   \x2d Multi\x2dasset transaction with missing asset in input/output sums\n\n7. **Database Operations** (`storage.js`, `joint_storage.js`, `sqlite_pool.js`, `mysql_pool.js`):\n   \x2d SQL injection via unit messages or address strings\n   \x2d Race condition in concurrent unit storage (duplicate inserts)\n   \x2d Database deadlock during complex transactions\n   \x2d Foreign key constraint violations orphaning records\n   \x2d Index corruption causing incorrect validation lookups\n   \x2d Transaction rollback leaving partial state\n\n8. **Signature & Authorization** (`signature.js`, `definition.js`):\n   \x2d ECDSA s\x2dvalue malleability\n   \x2d Multi\x2dsig definition evaluation bypass\n   \x2d Definition change attack\n   \x2d Address collision\n   \x2d Signature verification using wrong hash\n\n9. **Oracle & Data Feeds** (`data_feeds.js`):\n   \x2d Oracle signature verification bypass\n   \x2d Timestamp spoofing in data feed messages\n   \x2d AA trusting single oracle without redundancy\n   \x2d Data feed censorship preventing AA execution\n",
  "\n10. **Graph Operations** (`graph.js`, `object_hash.js`):\n    \x2d Parent cycle detection failure\n    \x2d Hash collision or preimage attack on unit hashes\n    \x2d Best parent selection non\x2ddeterminism\n    \x2d DAG traversal infinite loop on malformed graph\n\n**OBYTE\x2dSPECIFIC ATTACK VECTORS:**\n\n\x2d **Chain Split via Non\x2dDeterministic MC**:  Can floating\x2dpoint math, timestamp ties, or hash collisions cause different nodes to select different main chains? \n\x2d **Double\x2dSpend via Race Condition**: Can two units spending same output both be accepted if submitted simultaneously to different nodes?\n\x2d **AA Sandbox Escape**: Can attacker craft formula using prototype pollution, constructor injection, or eval to execute arbitrary Node.js code?\n\x2d **Witness Incompatibility Partition**: Can attacker post unit with witness list incompatible with all parents, causing permanent split?\n\x2d **Balance Overflow/Underflow**: Can integer overflow in asset balance calculations mint unlimited tokens?\n\x2d **Last Ball Fork**: Can two units at same MCI both become last ball? \n\x2d **Light Client Proof Forgery**: Can attacker generate fake witness proof? \n\x2d **Unit Flooding DoS**: Can attacker submit massive number of valid units exceeding node processing capacity? \n\x2d **AA State Divergence**: Can concurrent AA triggers cause different nodes to reach different state? \n\x2d **Cascading Trigger Reentrancy**: Can AA trigger itself via secondary response before state is committed?\n\x2d **Definition Change Theft**: Can attacker submit `d",
  "efinition_chg` message replacing victim\x27s address definition?\n\x2d **Asset Cap Bypass**: Can attacker issue divisible asset multiple times to exceed `max_cap`?\n\x2d **Indivisible Serial Collision**: Can same serial number be issued twice? \n\x2d **Signature Malleability**: Can attacker flip ECDSA s\x2dvalue to create different valid signature? \n\x2d **SQL Injection**: Can attacker inject SQL via unit messages or addresses?\n\x2d **Catchup Poisoning**: Can malicious peer send incorrect units during sync? \n\n**TRUST MODEL:**\n\n**Trusted Roles**:  Witnesses (12 per unit), oracle data feed providers, \nhub operators (for light clients). Do **not** assume these actors behave \nmaliciously unless the question explicitly explores compromised witness \nor oracle scenarios.\n\n**Untrusted Actors**: Any user submitting units, AA developers, malicious \npeers, MEV searchers, adversarial AAs attempting to exploit other AAs.  \nFocus your analysis on bugs exploitable by untrusted actors without \nrequiring witness collusion, oracle compromise, or governance \nmisconfiguration.\n\n**KNOWN ISSUES / EXCLUSIONS:**\n\n\x2d Cryptographic primitives (SHA256, ECDSA) are assumed secure\n\x2d Witness collusion or 7+ of 12 witnesses acting maliciously\n\x2d Oracle data accuracy (oracles are trusted to provide correct data)\n\x2d Network\x2dlevel attacks (DDoS, BGP hijacking, DNS poisoning)\n\x2d Node.js runtime bugs (V8 engine bugs, libuv issues) unrelated to Obyte code\n\x2d Social engineering, phishing, or key theft\n\x2d Gas optimization, code style, missing c",
  "omments\n\x2d Precision loss <0.01% in fee calculations\n\x2d Test file issues (tests are out of scope)\n\n**VALID IMPACT CATEGORIES (Immunefi Obyte Bug Bounty):**\n\n**Critical Severity**:\n\x2d Network not being able to confirm new transactions (total shutdown >24 hours)\n\x2d Unintended permanent chain split requiring hard fork\n\x2d Direct loss of funds (theft of bytes or custom assets)\n\x2d Permanent freezing of funds (fix requires hardfork)\n\n**High Severity**:\n\x2d Permanent freezing of funds requiring hard fork to resolve\n\n**Medium Severity**:\n\x2d Temporary freezing of network transactions (≥1 day delay)\n\x2d Temporary freezing of network transactions (≥1 hour delay)\n\x2d Unintended AA behavior with no concrete funds at direct risk\n\n**Low/QA (out of scope)**:\n\x2d Minor precision loss (<0.01%)\n\x2d Gas inefficiencies\n\x2d Event emission or logging issues\n\x2d Non\x2dcritical edge cases with no financial impact\n\x2d UI/UX issues\n\n**OUTPUT REQUIREMENTS:**\n\nIf you discover a valid vulnerability related to the security question, \nproduce a **full report** following the format below.  Your report must include: \n\x2d Exact file paths and function names\n\x2d Code quotations (actual snippets from the 77 in\x2dscope files)\n\x2d Step\x2dby\x2dstep exploitation path with realistic parameters\n\x2d Clear explanation of which invariant is broken\n\x2d Impact quantification (fund loss amount, network downtime duration)\n\x2d Likelihood assessment (attacker profile, preconditions, complexity)\n\x2d Concrete recommendation with code fix\n\x2d Proof of Concept (JavaScript/Node.",
  "js test demonstrating the exploit)\n\nIf **no** valid vulnerability emerges after thorough investigation, state exactly: \n`",
  "#NoVulnerability found for this question.",
  " `\n\n**Do not fabricate or exaggerate issues. ** Only concrete, exploitable bugs with clear attack paths and realistic impact count.\n\n**Do not** report: \n\x2d Known issues from previous audits or documentation\n\x2d Out\x2dof\x2dscope problems (test files, Node.js bugs, crypto primitive breaks)\n\x2d Theoretical vulnerabilities without clear attack path and PoC\n\x2d Issues requiring trusted roles to behave maliciously\n\x2d Minor optimizations, style issues, or low\x2dseverity findings\n\n**Focus on one high\x2dquality finding** rather than multiple weak claims.\n\n**VALIDATION CHECKLIST (Before Reporting):**\n\x2d [ ] Vulnerability lies within one of the 77 in\x2dscope files (not test/)\n\x2d [ ] Exploitable by unprivileged attacker (no witness/oracle collusion required)\n\x2d [ ] Attack path is realistic with correct data types and feasible parameters\n\x2d [ ] Impact meets Critical, High, or Medium severity per Immunefi scope\n\x2d [ ] PoC can be implemented as Node.js test or unit submission script\n\x2d [ ] Issue breaks at least one documented invariant\n\x2d [ ] Not a known exclusion\n\x2d [ ] Clear financial harm, network disruption, or state divergence demonstrated\n\n\x2d\x2d\x2d\n\n**AUDIT REPORT FORMAT** (if vulnerability found):\n\n## Title\n[Clear, specific vulnerability name tied to the question]\n\n## Summary\n[Concise 2\x2d3 sentence description of the issue and its location]\n\n## Impact\n**Severity**: [Critical / High / Medium]\n**Category**: [Network Shutdown / Chain Split / Direct Fund Loss / Permanent Fund Freeze / Temporary Transaction Delay / Unin",
  "tended AA Behavior]\n\n## Finding Description\n\n**Location**: `byteball/ocore/[filename]. js` (specific function name, line numbers if possible)\n\n**Intended Logic**: [What the code should do per comments/protocol spec]\n\n**Actual Logic**: [What the code does in the vulnerable scenario]\n\n**Code Evidence**:\n```javascript\n// Quote relevant code snippet from the file showing the bug\n// Include surrounding context (5\x2d10 lines) for clarity\n```\n\n**Exploitation Path**:\n1. **Preconditions**: [Initial state]\n2. **Step 1**: [Specific action with parameters and code path triggered]\n3. **Step 2**: [Subsequent state change \x2d database and node observations]\n4. **Step 3**: [Follow\x2dup action exploiting the state]\n5. **Step 4**: [Unauthorized outcome and invariant broken]\n\n**Security Property Broken**: [Which of the 24 invariants is violated]\n\n**Root Cause Analysis**:  [Deep dive into why the bug exists]\n\n## Impact Explanation\n\n**Affected Assets**: [bytes, custom assets, AA state, user balances]\n\n**Damage Severity**:\n\x2d **Quantitative**: [Specific amounts and scale]\n\x2d **Qualitative**: [Nature of damage]\n\n**User Impact**:\n\x2d **Who**: [Affected parties]\n\x2d **Conditions**: [When exploitable]\n\x2d **Recovery**: [Recovery options]\n\n**Systemic Risk**: [Cascading effects and automation potential]\n\n## Likelihood Explanation\n\n**Attacker Profile**:\n\x2d **Identity**: [Type of attacker]\n\x2d **Resources Required**: [What attacker needs]\n\x2d **Technical Skill**: [Skill level required]\n\n**Preconditions**:\n\x2d **Network State*",
  "*: [Required network conditions]\n\x2d **Attacker State**: [Required attacker position]\n\x2d **Timing**: [Timing requirements]\n\n**Execution Complexity**:\n\x2d **Transaction Count**: [Number of transactions needed]\n\x2d **Coordination**: [Coordination requirements]\n\x2d **Detection Risk**: [How detectable is the attack]\n\n**Frequency**:\n\x2d **Repeatability**: [How often can it be repeated]\n\x2d **Scale**: [Attack scope]\n\n**Overall Assessment**:  [High/Medium/Low likelihood assessment]\n\n## Recommendation\n\n**Immediate Mitigation**: [Short\x2dterm fix]\n\n**Permanent Fix**: [Long\x2dterm solution]\n\n**Code Changes**:\n```javascript\n// File: byteball/ocore/[filename].js\n// Function: [functionName]\n\n// BEFORE (vulnerable code):\nfunction vulnerableFunction(param) \x7b\n     existing vulnerable logic\n    \x7d\n\n// AFTER (fixed code):\nfunction vulnerableFunction(param) \x7b\n    // fixed logic with validation\n\x7d\n```\n\n  **Additional Measures**:\n\x2d [New test cases]\n\x2d [Database schema changes]\n\x2d [Monitoring/alerting]\n\n**Validation**:\n\x2d [ ] Fix prevents exploitation\n                   \x2d [ ] No new vulnerabilities introduced\n                                                \x2d [ ] Backward compatible\n                                                               \x2d [ ] Performance impact acceptable\n\n                                                                                        ## Proof of Concept\n\n                                                                                        **Test Environment Setup**:\n```bash\ngit clone ",
  "https://github.com/byteball/ocore.git\ncd ocore\nnpm install\n```\n\n  **Exploit Script** (`exploit_poc.js`):\n```javascript\n   /*\n   * Proof of Concept for [Vulnerability Name]\n                          * Demonstrates:  [what the PoC shows]\n                                           * Expected Result: [what happens when vulnerability is present]\n                                                              */\n\n                                                              const network \x3d require(\x27./network. js\x27);\nconst composer \x3d require(\x27./composer.js\x27);\nconst validation \x3d require(\x27./validation.js\x27);\nconst storage \x3d require(\x27./storage.js\x27);\n\nasync function runExploit() \x7b\n// Implementation showing the exploit\n\x7d\n\nrunExploit().then(success \x3d> \x7b\n    process.exit(success ? 0 : 1);\n\x7d);\n```\n\n  **Expected Output** (when vulnerability exists):\n```\n[Output showing successful exploit]\n```\n\n**Expected Output** (after fix applied):\n```\n[Output showing exploit prevention]\n```\n\n**PoC Validation**:\n\x2d [ ] PoC runs against unmodified ocore codebase\n                                        \x2d [ ] Demonstrates clear violation of invariant\n                                                                              \x2d [ ] Shows measurable impact\n                                                                                                     \x2d [ ] Fails gracefully after fix applied\n\n                                                                                                                       ",
  "               \x2d\x2d\x2d\n\n**If NO vulnerability found, output ONLY:**\n`",
  "#NoVulnerability found for this question.",
  "`\n\n\x2d\x2d\x2d\n\n**FINAL REMINDERS:**\n\n\x2d Trace entire execution flows from user action → validation → storage → consensus → network propagation\n                                                                                             \x2d Test DAG structure edge cases\n                                                                                                                       \x2d Validate AA sandbox rigorously\n                                                                                                                                             \x2d Check race conditions thoroughly\n                                                                                                                                                                     \x2d Verify integer arithmetic\n                                                                                                                                                                                      \x2d Examine signature validation\n                                                                                                                                                                                                          \x2d Test network attack vectors\n                                                                                                                                                                                                                                \x2d Inspect database operations\n                    ",
  "                                                                                                                                                                                                                               \x2d Be absolutely certain before reporting\n                                                                                                                                                                                                                                                                                  \x2d If any doubt remains, default to reporting no vulnerability\n\nNow investigate the security question thoroughly and produce your finding.\n"
]

/-- Scaffold text of validation_format before its single interpolation slot, as a list of consecutive pieces whose concatenation is the source text (src/questions.py, f-string of validation_format). -/
def vfAps : List String := [
  "\nYou are an **Elite Distributed Ledger Security Judge** with deep expertise in DAG\x2dbased consensus systems, JavaScript VM sandboxing, Obyte (Byteball) Protocol architecture, and Immunefi bug bounty validation.  Your ONLY task is **ruthless technical validation** of security claims against the Obyte codebase.\n\nNote:  Witnesses (12 per unit) and oracle providers are trusted roles. \n\n**SECURITY CLAIM TO VALIDATE:**\n"
]

/-- Scaffold text of validation_format after its single interpolation slot, as a list of consecutive pieces whose concatenation is the source text (src/questions.py, f-string of validation_format). -/
def vfBps : List String := [
  "\n\n\x3d\x3d\x3d\x3d\x3d\x3d\x3d\x3d\x3d\x3d\x3d\x3d\x3d\x3d\x3d\x3d\x3d\x3d\x3d\x3d\x3d\x3d\x3d\x3d\x3d\x3d\x3d\x3d\x3d\x3d\x3d\x3d\x3d\x3d\x3d\x3d\x3d\x3d\x3d\x3d\x3d\x3d\x3d\x3d\x3d\x3d\x3d\x3d\x3d\x3d\x3d\x3d\x3d\x3d\x3d\x3d\x3d\x3d\x3d\x3d\x3d\x3d\x3d\x3d\x3d\x3d\x3d\x3d\x3d\x3d\x3d\x3d\x3d\x3d\x3d\x3d\x3d\x3d\x3d\x3d\n## **OBYTE PROTOCOL VALIDATION FRAMEWORK**\n\n### **PHASE 1: IMMEDIATE DISQUALIFICATION CHECKS**\nReject immediately (`#NoVulnerability`) if **ANY** apply:\n\n#### **A.  Scope Violations**\n\x2d ❌ Affects files **not** in the 77 in\x2dscope files from `byteball/ocore` repository\n\x2d ❌ Targets any file under `./test/` directory (tests are out of scope)\n\x2d ❌ Claims about documentation, comments, code style, or logging (not security issues)\n\x2d ❌ Focuses on out\x2dof\x2dscope components:  UI, wallets, SDKs, deployment scripts, or external dependencies\n\n**In\x2dScope Files (77 total):**\n\x2d **Core Protocol**:  `validation.js`, `storage.js`, `main_chain.js`, `network.js`, `wallet.js`, `composer.js`, `writer.js`, `graph.js`, `object_hash.js`, `signature.js`, `definition.js`, `inputs.js`, `parent_composer.js`, `joint_storage.js`, `catchup.js`, `light. js`, `device.js`, `witness_proof.js`, `data_feeds.js`, `arbiter_contract.js`, `divisible_asset.js`, `indivisible_asset.js`, and others\n\x2d **AA Engine**: `formula/evaluation.js`, `formula/validation.js`, `aa_composer.js`, `aa_validation.js`, `aa_addresses.js`\n\x2d **Database**: `sqlite_pool.js`, `mysql_pool.js`, `sqlite_migrations.js`, `kvstore.js`\n\x2d **Tools**: `tools/check_stability.js`, `tools/validate_aa_definitions.js`, etc. \n\n**Verify**:  Check that every file path cited in the report matches exactly one of the 77 in\x2dscope files. \n\n#### **B. Threat Model Violations**\n\x2d ❌ Requires 7",
  "+ of 12 witnesses to collude or act maliciously (witnesses are trusted)\n\x2d ❌ Assumes compromised oracle data feed providers (oracles are trusted to provide correct data)\n\x2d ❌ Needs hub operators to manipulate light client messages (hubs are trusted for light clients)\n\x2d ❌ Requires attacker to compromise Node.js runtime, V8 engine, or operating system\n\x2d ❌ Assumes cryptographic primitives (SHA256, ECDSA) are broken without quantum computers\n\x2d ❌ Depends on network\x2dlevel attacks:  DDoS, BGP hijacking, DNS poisoning, or packet manipulation\n\x2d ❌ Relies on social engineering, phishing, key theft, or user operational security failures\n\n**Trusted Roles**:  Witnesses post regular heartbeat units and vote on main chain; oracles provide signed data feeds; hub operators relay messages for light clients.   Do **not** assume these actors behave maliciously.\n\n**Untrusted Actors**: Any user submitting units, AA developers deploying smart contracts, malicious peers in P2P network, MEV bots, adversarial AAs attempting to exploit other AAs. \n\n#### **C. Known Issues / Accepted Risks**\n\x2d ❌ Cryptographic hash collisions or preimage attacks on SHA256 (assumed secure)\n\x2d ❌ ECDSA signature forgery without private key (assumed secure)\n\x2d ❌ Witness collusion (7+ of 12 witnesses required; trusted role)\n\x2d ❌ Oracle data accuracy issues (oracles trusted to provide correct prices/data)\n\x2d ❌ Network partition attacks (DDoS, routing attacks) outside protocol logic\n\x2d ❌ Node.js runtime bugs (V8, libuv) unrelated to Oby",
  "te\x2dspecific code\n\x2d ❌ Precision loss <0.01% in fee calculations (acceptable rounding)\n\n#### **D. Non\x2dSecurity Issues**\n\x2d ❌ Gas optimizations, performance improvements, or micro\x2doptimizations\n\x2d ❌ Code style, naming conventions, or refactoring suggestions\n\x2d ❌ Missing events, logs, error messages, or better user experience\n\x2d ❌ NatSpec comments, documentation improvements, or README updates\n\x2d ❌ \"Best practices\" recommendations with no concrete exploit scenario\n\x2d ❌ Input validation preventing honest user mistakes (e.g., reject zero address) unless it allows theft\n\x2d ❌ Minor precision errors with negligible financial impact (<0.01%)\n\n#### **E. Invalid Exploit Scenarios**\n\x2d ❌ Requires impossible inputs:  negative integers (JavaScript doesn\x27t have unsigned types but validation should check), addresses longer than valid format, timestamps beyond realistic bounds\n\x2d ❌ Cannot be triggered through any realistic unit submission or AA trigger\n\x2d ❌ Depends on calling internal functions not exposed through any public API\n\x2d ❌ Relies on race conditions that are prevented by database transactions or mutex locks\n\x2d ❌ Needs multiple ordered units with no economic incentive or unrealistic coordination\n\x2d ❌ Requires attacker to already possess the funds they seek to steal (self\x2ddraining is not an exploit)\n\x2d ❌ Depends on miner/validator controlling block timestamp beyond reasonable bounds (±15 minutes)\n\n### **PHASE 2: OBYTE\x2dSPECIFIC DEEP CODE VALIDATION**\n\n#### **Step 1: TRACE COMPLETE EXECUTION PATH THRO",
  "UGH DAG ARCHITECTURE**\n\n**Obyte Flow Patterns:**\n\n1. **Unit Submission Flow**:\n   User creates unit → `composer.js` constructs unit → `parent_composer.js` selects parents → `object_hash.js` computes hash → `signature.js` signs → `network.js` broadcasts → `validation.js` validates → `storage.js` stores → `main_chain.js` updates MC → `witness_proof.js` generates proofs\n\n2. **AA Trigger Flow**:\n   User sends trigger unit → `aa_composer.js` detects AA address → `formula/validation.js` validates formula syntax → `formula/evaluation.js` executes formula → AA response unit created → Secondary triggers cascade → State variables updated in `kvstore.js`\n\n3. **Asset Transfer Flow**:\n   Unit with payment message → `inputs.js` validates input references → `divisible_asset.js` or `indivisible_asset.js` processes transfer → Balance checks in `validation.js` → Outputs recorded in `storage.js`\n\n4. **Consensus Flow**:\n   New units arrive → `graph.js` builds DAG structure → `witness_proof.js` tracks witness units → `main_chain.js` determines MC index and stability → Last ball updated → Stable units become immutable\n\nFor each claim, reconstruct the entire execution path: \n\n1. **Identify Entry Point**:  Which user\x2dfacing function is called?  (`network.handleJoint()`, `composer.composeJoint()`, `wallet.sendPayment()`, etc.)\n2. **Follow Internal Calls**: Trace through all function calls, including: \n   \x2d Validation checks in `validation.js:validate()`\n   \x2d Database queries in `storage.js`\n   \x2d MC u",
  "pdates in `main_chain.js`\n   \x2d AA execution in `formula/evaluation.js`\n3. **State Before Exploit**: Document initial state (unit graph, balances, AA state, witness list, MC index)\n4. **State Transitions**:  Enumerate all changes (new units, spent outputs, AA state updates, MC advancement)\n5. **Check Protections**: Verify if mutex locks (`mutex.js`), database transactions, or validation gates prevent the exploit\n6. **Final State**: Show how the exploit results in unauthorized state (double\x2dspend, inflated balance, broken consensus)\n\n#### **Step 2: VALIDATE EVERY CLAIM WITH CODE EVIDENCE**\n\nFor **each assertion** in the report, demand:\n\n**✅ Required Evidence:**\n\x2d Exact file path and line numbers (e.g., `validation.js:450\x2d475`) within the 77 in\x2dscope files\n\x2d Direct JavaScript code quotes showing the vulnerable logic\n\x2d Call traces with actual parameter values demonstrating how execution reaches the vulnerable line\n\x2d Calculations showing how balances, MC indices, or AA state change incorrectly\n\x2d Database schema references showing constraint violations or missing checks\n\n**🚩 RED FLAGS (indicate INVALID):**\n\n1. **\"Missing Validation\" Claims**:\n   \x2d ❌ Invalid unless report shows input bypasses *all* validation layers: \n     \x2d `validation.js:validate()` checks\n     \x2d `inputs.js:validateInputs()` checks\n     \x2d `aa_validation.js` checks for AA triggers\n     \x2d Database constraint checks\n   \x2d ✅ Valid if a specific input type genuinely has no validation path\n\n2. **\"Double\x2dSpend\" Claims**:\n",
  "   \x2d ❌ Invalid unless report demonstrates: \n     \x2d Two units spending same output both pass validation\n     \x2d Database unique constraint on `(unit, message_index, output_index)` is missing or bypassable\n     \x2d Race condition window exists between validation and storage commit\n   \x2d ✅ Valid if concurrent submission to different nodes can result in both units being accepted into DAG\n\n3. **\"Integer Overflow/Underflow\" Claims**: \n   \x2d ❌ Invalid unless JavaScript number handling allows exploitation:\n     \x2d JavaScript uses floating\x2dpoint numbers (no native int64)\n     \x2d Obyte uses libraries for big integers where needed\n     \x2d Report must show actual overflow causing incorrect balance calculation\n   \x2d ✅ Valid if arithmetic operations produce incorrect results with attacker\x2dcontrolled inputs\n\n4. **\"AA Sandbox Escape\" Claims**:\n   \x2d ❌ Invalid unless report demonstrates: \n     \x2d Actual prototype pollution:  `Object.prototype.malicious \x3d ... `\n     \x2d Constructor injection: `\x7b\x7d. constructor.constructor(\x27code\x27)()`\n     \x2d Access to Node.js globals: `require()`, `process`, `fs`, `__dirname`\n     \x2d Eval usage: `eval()`, `Function()` constructor\n   \x2d ✅ Valid if AA formula can execute arbitrary Node.js code on validator nodes\n\n5. **\"Non\x2dDeterministic Execution\" Claims**:\n   \x2d ❌ Invalid unless report shows usage in consensus\x2dcritical code: \n     \x2d `Math.random()` in MC selection\n     \x2d `Date.now()` in validation logic\n     \x2d Floating\x2dpoint comparisons causing different results on different CPUs",
  "\n     \x2d Timestamp tie\x2dbreaking with undefined behavior\n   \x2d ✅ Valid if different nodes reach different MC or validation decisions for same input\n\n6. **\"Main Chain Split\" Claims**:\n   \x2d ❌ Invalid unless report demonstrates: \n     \x2d Specific non\x2ddeterministic logic in `main_chain.js:updateMainChainIndex()`\n     \x2d Witness level calculation differences\n     \x2d Last ball assignment differences\n     \x2d Stability point disagreement\n   \x2d ✅ Valid if nodes permanently diverge on MC structure requiring hard fork\n\n7. **\"Witness Incompatibility\" Claims**:\n   \x2d ❌ Invalid if validation rejects incompatible witness lists\n   \x2d ✅ Valid if unit with incompatible witnesses (sharing <1 witness with parents) is accepted, causing permanent partition\n\n8. **\"SQL Injection\" Claims**:\n   \x2d ❌ Invalid if all queries use parameterized statements or proper escaping\n   \x2d ✅ Valid if unit messages or addresses can inject SQL, corrupting database\n\n9. **\"Race Condition\" Claims**:\n   \x2d ❌ Invalid if mutex locks or database transactions prevent concurrent access\n   \x2d ✅ Valid if concurrent operations can result in inconsistent state (e.g., double\x2dspend, duplicate serials)\n\n10. **\"Asset Cap Bypass\" Claims**:\n    \x2d ❌ Invalid if `divisible_asset.js` enforces `max_cap` on all issuance operations\n    \x2d ✅ Valid if attacker can issue asset multiple times exceeding cap\n\n#### **Step 3: CROSS\x2dREFERENCE WITH TEST SUITE**\n\nObyte\x27s test suite includes unit and integration tests in `test/` directory (out of scope but informative).",
  "  Ask: \n\n1. **Existing Coverage**: Do current tests handle the scenario?  Check tests like: \n   \x2d `test/validation.test.js` \x2d unit validation edge cases\n   \x2d `test/aa. test.js` \x2d AA execution determinism\n   \x2d `test/formula. test.js` \x2d formula sandbox isolation\n   \x2d `test/merkle.test.js` \x2d DAG structure integrity\n   \x2d `test/string_utils.test.js` \x2d input sanitization\n\n2. **Test Gaps**: Is there an obvious gap that would allow the exploit? If scenario is untested, suggest adding test but do **not** assume vulnerability.\n\n3. **Invariant Tests**: Would existing invariant checks catch the bug? Tests verify:\n   \x2d Balance conservation across all units\n   \x2d MC monotonicity (no MCI decreases along paths)\n   \x2d Witness compatibility in all units\n   \x2d Deterministic AA execution\n   \x2d Double\x2dspend prevention\n\n4. **PoC Feasibility**: Can the report\x27s PoC be implemented as a Node.js test using existing Obyte modules without modifying core code?\n\n**Test Case Realism Check**:  PoCs must use realistic unit structures, valid parent references, proper signatures, and respect protocol constraints (max 15 parents, 12 witnesses, valid timestamps).\n\n### **PHASE 3: IMPACT & EXPLOITABILITY VALIDATION**\n\n#### **Impact Must Be CONCRETE and ALIGN WITH IMMUNEFI SCOPE**\n\n**✅ Valid CRITICAL Severity Impacts (per Immunefi Obyte scope):**\n\n1. **Network Shutdown (Critical)**:\n   \x2d Network unable to confirm new transactions for >24 hours\n   \x2d All nodes halt or reject valid units\n   \x2d Consensus deadlock preventing",
  " MC advancement\n   \x2d Database corruption blocking unit storage\n   \x2d Example: \"Validation logic rejects all units with specific witness list, halting network\"\n\n2. **Permanent Chain Split Requiring Hard Fork (Critical)**:\n   \x2d Network partitions into incompatible branches\n   \x2d Different nodes reach different MC or stability points\n   \x2d Witness incompatibility causing permanent divergence\n   \x2d Non\x2ddeterministic validation causing state disagreement\n   \x2d Example: \"Floating\x2dpoint comparison in MC selection causes nodes to choose different chains\"\n\n3. **Direct Loss of Funds (Critical)**:\n   \x2d Theft of bytes (native currency) from user addresses\n   \x2d Theft of custom assets (divisible/indivisible) from users\n   \x2d Unauthorized spending of outputs owned by others\n   \x2d Double\x2dspend allowing attacker to spend same output multiple times\n   \x2d Example: \"Race condition allows attacker to spend output in two units, stealing 10,000 bytes\"\n\n4. **Permanent Freezing of Funds Requiring Hard Fork (Critical)**:\n   \x2d Funds locked with no transaction able to unlock them\n   \x2d Address definition change bricking address (no valid signatures possible)\n   \x2d AA state corruption preventing withdrawals\n   \x2d Invalid unit structure making outputs unspendable\n   \x2d Example: \"Definition change to impossible\x2dto\x2dsatisfy condition locks 100,000 bytes forever\"\n\n**✅ Valid HIGH Severity Impacts:**\n\n5. **Permanent Freezing of Funds (High)**:\n   \x2d Same as Critical #4 above (Immunefi lists this in both Critical and High)\n\n",
  "**✅ Valid MEDIUM Severity Impacts:**\n\n6. **Temporary Transaction Delay ≥1 Day (Medium)**:\n   \x2d Units not confirmed within 24 hours due to processing delay\n   \x2d DoS attack flooding network with valid units\n   \x2d Expensive validation operations slowing acceptance\n   \x2d Database query bottlenecks during catchup\n   \x2d Example: \"Attacker submits 100,000 units/second, overwhelming validation queue for 30 hours\"\n\n7. **Temporary Transaction Delay ≥1 Hour (Medium)**:\n   \x2d Units not confirmed within 1 hour due to processing delay\n   \x2d Malicious units with maximum complexity causing slowdown\n   \x2d Example: \"Units with 15 parents each cause validation to take 5 minutes per unit, delaying confirmations\"\n\n8. **Unintended AA Behavior Without Direct Fund Risk (Medium)**:\n   \x2d AA formula produces incorrect results but no funds lost\n   \x2d Non\x2ddeterministic AA execution without consensus break\n   \x2d Incorrect oracle data interpretation in AAs\n   \x2d Example: \"AA state variable reads return stale data due to race condition, affecting logic but not causing theft\"\n\n**❌ Invalid \"Impacts\":**\n\n\x2d User withdraws their own funds (normal protocol operation)\n\x2d Attacker loses their own funds through self\x2ddraining (not an exploit)\n\x2d Theoretical cryptographic weaknesses without practical exploit\n\x2d General network risk (e.g., \"if all witnesses go offline\")\n\x2d \"Could be problematic if...\" statements without concrete exploit path\n\x2d DoS affecting <1 hour with no fund theft\n\x2d Minor fee overpayment or underpayment (<0.1% o",
  "f unit value)\n\x2d Precision loss <0.01% across reasonable transaction volumes\n\n#### **Likelihood Reality Check**\n\nAssess exploit feasibility: \n\n1. **Attacker Profile**:\n   \x2d Any user with Obyte address?  ✅ Likely\n   \x2d Malicious peer in P2P network? ✅ Likely\n   \x2d MEV bot front\x2drunning transactions? ✅ Possible\n   \x2d AA developer deploying malicious AA? ✅ Possible\n   \x2d Compromised oracle provider? ❌ Unlikely (trusted role)\n   \x2d 7+ of 12 witnesses colluding? ❌ Impossible (trusted role)\n\n2. **Preconditions**:\n   \x2d Normal network operation? ✅ High likelihood\n   \x2d High transaction volume? ✅ Possible during peak usage\n   \x2d Specific unit structure (e.g., maximum parents)? ✅ Attacker\x2dcontrolled\n   \x2d Specific AA state (e.g., uninitialized variable)? ✅ Attacker can deploy AA\n   \x2d Specific timing (e.g., during catchup)? ✅ Attacker can time submission\n   \x2d Network partition or witness censorship? ❌ Low likelihood\n\n3. **Execution Complexity**:\n   \x2d Single unit submission? ✅ Simple\n   \x2d Multiple coordinated units? ✅ Moderate (attacker controls)\n   \x2d Concurrent submission to multiple nodes? ✅ Moderate (requires network position)\n   \x2d Complex AA formula with edge cases? ✅ Attacker can deploy\n   \x2d Requires front\x2drunning or precise timing? ⚠️ Higher complexity\n   \x2d Requires cryptographic manipulation? ❌ Impractical\n\n4. **Economic Cost**:\n   \x2d Unit fees (headers + payload)? ✅ Minimal (few dollars)\n   \x2d Collateral lockup (e.g., for AA state)? ✅ Attacker\x2ddetermined\n   \x2d Gas costs for multiple transact",
  "ions? ✅ Moderate\n   \x2d Potential profit vs. cost?  ✅ Must be positive for valid exploit\n\n5. **Combined Probability**:\n   \x2d Multiply probabilities of all conditions\n   \x2d If resulting likelihood <0.1% with no economic incentive → Invalid\n   \x2d If exploit is profitable and feasible → Valid\n\n### **PHASE 4: PROOF OF CONCEPT VALIDATION**\n\n**A Valid PoC MUST:**\n\n1. **Be Implementable in Node.js/JavaScript**:\n   \x2d Uses existing Obyte modules (`composer`, `network`, `validation`, etc.)\n   \x2d Compiles and runs without syntax errors\n   \x2d Does not require modifying core protocol files\n\n2. **Use Realistic, Achievable Inputs**:\n   \x2d Valid unit structures (proper JSON format, required fields)\n   \x2d Realistic balances (not 2^256\x2d1 bytes)\n   \x2d Valid parent references (existing unit hashes)\n   \x2d Proper witness lists (12 valid addresses)\n   \x2d Correct signatures (matching authors)\n   \x2d Reasonable timestamps (within ±15 minutes of parent timestamps)\n\n3. **Show BEFORE → ACTION → AFTER**:\n   \x2d **Before**: Display initial state (database records, balances, MC index, AA state)\n   \x2d **Action**: Execute exploit transaction(s) with exact parameters\n   \x2d **After**: Show resulting state violating invariant (double\x2dspend, inflated balance, diverged MC)\n\n4. **NOT Require Bypassing Security Checks**:\n   \x2d Do not comment out validation logic\n   \x2d Do not call internal functions directly\n   \x2d Do not modify database schema or constraints\n   \x2d Do not skip signature verification\n\n5. **Actually Compile and Run**:\n   \x2d ",
  "Provide complete runnable script\n   \x2d Include setup instructions (database initialization, test data)\n   \x2d Show console output or logs proving the bug\n   \x2d Include assertions that fail when exploit succeeds\n\n**PoC Red Flags (INVALID):**\n\n\x2d ❌ \"Attacker sets witness list to empty array\" (validation rejects)\n\x2d ❌ \"Call internal function `_updateMainChainIndex()` directly\" (not exposed)\n\x2d ❌ \"Submit unit with negative balance\" (validation rejects)\n\x2d ❌ \"Requires modifying `validation.js` to skip checks\" (not allowed)\n\x2d ❌ \"Unit with timestamp in year 2050\" (unrealistic)\n\x2d ❌ Fails to run due to missing dependencies or syntax errors\n\x2d ❌ \"Assume attacker has access to witness private keys\" (trusted role)\n\n### **PHASE 5: DIFFERENTIAL ANALYSIS**\n\nCompare reported behavior with protocol design and similar systems:\n\n1. **Is This Standard DAG Behavior?**:\n   \x2d Units reference multiple parents → Expected\n   \x2d Witness\x2dbased consensus with stability threshold → By design\n   \x2d Last ball chain forming immutable history → Intentional\n   \x2d MC index strictly increasing along paths → Core invariant\n   \x2d Do not treat design features as bugs\n\n2. **Is The Behavior Intentional?**:\n   \x2d Cross\x2dcheck Obyte documentation (whitepaper, wiki, developer docs)\n   \x2d Review protocol specification for witness voting, MC selection, stability\n   \x2d Check if behavior is explicitly documented as expected\n\n3. **Design vs. Bug Distinction**:\n   \x2d Obyte deliberately uses DAG instead of linear blockchain\n   \x2d Witness trust m",
  "odel is intentional (not a bug)\n   \x2d AA determinism requirements are by design\n   \x2d Balance conservation is fundamental invariant\n   \x2d Only deviations from documented invariants are bugs\n\n4. **System\x2dLevel Protections**:\n   \x2d Consider multi\x2dlayer defenses:\n     \x2d Validation checks in `validation.js`\n     \x2d Database constraints (unique, foreign keys)\n     \x2d Mutex locks in `mutex.js`\n     \x2d Transaction atomicity in `storage.js`\n   \x2d A report ignoring these protections is likely invalid\n\n### **FINAL DECISION MATRIX**\n\nA claim is **VALID** only if **ALL** are true:\n\n\x2d [ ] Vulnerability is in one of the 77 in\x2dscope files from `byteball/ocore`\n\x2d [ ] Not in `test/` directory or other excluded components\n\x2d [ ] No witness collusion or oracle compromise required\n\x2d [ ] No cryptographic primitive breaks assumed\n\x2d [ ] Not an accepted risk or intentional design feature\n\x2d [ ] Unprivileged attacker can execute via realistic unit submission or AA trigger\n\x2d [ ] Complete execution path is explained with exact file names and line numbers\n\x2d [ ] No hidden validation checks prevent the exploit\n\x2d [ ] State change is unauthorized (theft, inflation, consensus break, fund freeze)\n\x2d [ ] Impact meets Critical, High, or Medium severity per Immunefi Obyte scope: \n  \x2d **Critical**: Network shutdown >24h, permanent chain split, direct fund loss, permanent fund freeze\n  \x2d **High**:  Permanent fund freeze\n  \x2d **Medium**: Temporary delay ≥1 hour, unintended AA behavior\n\x2d [ ] PoC is realistic, runnable Node.js c",
  "ode without modifying protocol files\n\x2d [ ] Exploit violates a core invariant: \n  \x2d MC monotonicity\n  \x2d Witness compatibility\n  \x2d Stability irreversibility\n  \x2d Last ball consistency\n  \x2d Balance conservation\n  \x2d Double\x2dspend prevention\n  \x2d AA deterministic execution\n  \x2d Signature binding\n  \x2d Definition evaluation integrity\n\x2d [ ] Behavior is not documented as standard (e.g., witness voting, fee calculations)\n\x2d [ ] Not previously identified in audits or known issues\n\n**If any checkbox is unchecked → Output:** `#NoVulnerability found for this question. `\n\n### **SPECIAL OBYTE VALIDATION RULES**\n\n#### **1. \"Main Chain Split\" Claims**\n\x2d ✅ Valid ONLY if: \n  \x2d Non\x2ddeterministic logic in `main_chain.js` (floating\x2dpoint, timestamp ties)\n  \x2d Different nodes select different MC indices for same unit\n  \x2d Witness level calculation differs across nodes\n  \x2d Last ball assignment diverges\n  \x2d Demonstrated with concrete unit structures causing split\n\x2d ❌ Invalid if: \n  \x2d Split requires witness collusion\n  \x2d Claim assumes different validation rules on different nodes\n  \x2d Split is temporary and self\x2dcorrecting\n\n#### **2. \"Double\x2dSpend\" Claims**\n\x2d ✅ Valid ONLY if:\n  \x2d Two units spending same output both pass `validation.js:validate()`\n  \x2d Database unique constraint on spent outputs is missing or bypassable\n  \x2d Race condition between validation and storage allows concurrent spends\n  \x2d Demonstrated with timing diagrams showing race window\n\x2d ❌ Invalid if:\n  \x2d Database transaction isolation prevents race",
  "\n  \x2d One unit is rejected before commit\n  \x2d Requires attacker to control multiple nodes (unrealistic)\n\n#### **3. \"AA Sandbox Escape\" Claims**\n\x2d ✅ Valid ONLY if: \n  \x2d Attacker formula accesses Node.js globals: `require(\x27fs\x27)`, `process.exit()`, etc.\n  \x2d Prototype pollution affects validator node:  `Object.prototype.admin \x3d true`\n  \x2d Constructor injection executes arbitrary code:  `\x7b\x7d.constructor.constructor(\x27malicious\x27)()`\n  \x2d Eval usage allows code injection in `formula/evaluation.js`\n  \x2d Demonstrated with actual malicious formula code\n\x2d ❌ Invalid if:\n  \x2d Formula evaluation is properly sandboxed (VM2, isolated\x2dvm)\n  \x2d Globals are undefined or inaccessible\n  \x2d Prototype is frozen or protected\n\n#### **4. \"Balance Overflow\" Claims**\n\x2d ✅ Valid ONLY if:\n  \x2d JavaScript number precision loss causes incorrect balance\n  \x2d Integer overflow in asset amount calculations\n  \x2d Negative balances pass validation\n  \x2d Attacker can mint unlimited assets\n  \x2d Demonstrated with specific arithmetic causing overflow\n\x2d ❌ Invalid if:\n  \x2d Big integer libraries handle large numbers correctly\n  \x2d Validation rejects negative or overflowing values\n  \x2d Overflow would require impossible input values\n\n#### **5. \"Witness Incompatibility\" Claims**\n\x2d ✅ Valid ONLY if:\n  \x2d Unit with witness list sharing <1 witness with parents is accepted\n  \x2d Causes permanent partition for all descendants\n  \x2d Validation in `validation.js` misses incompatibility check\n  \x2d Demonstrated with specific witness list configurations\n\x2d ❌ In",
  "valid if:\n  \x2d Validation rejects incompatible witness lists\n  \x2d Protocol enforces ≥1 shared witness requirement\n\n#### **6. \"Asset Cap Bypass\" Claims**\n\x2d ✅ Valid ONLY if:\n  \x2d Divisible asset issued multiple times exceeding `max_cap`\n  \x2d `divisible_asset.js` fails to track total issued amount\n  \x2d Attacker can mint unlimited tokens\n  \x2d Demonstrated with multiple issuance transactions\n\x2d ❌ Invalid if:\n  \x2d Cap enforcement checks total supply before issuance\n  \x2d Database constraints prevent over\x2dissuance\n\n#### **7. \"Indivisible Serial Collision\" Claims**\n\x2d ✅ Valid ONLY if:\n  \x2d Same serial number issued twice for indivisible asset\n  \x2d `indivisible_asset.js` lacks uniqueness check\n  \x2d Database allows duplicate (asset, serial) entries\n  \x2d Demonstrated with two units issuing same serial\n\x2d ❌ Invalid if: \n  \x2d Database unique constraint prevents duplicates\n  \x2d Validation rejects units with duplicate serials\n\n#### **8. \"SQL Injection\" Claims**\n\x2d ✅ Valid ONLY if: \n  \x2d Unit message or address contains SQL injection payload\n  \x2d Query in `storage.js`, `sqlite_pool.js`, or `mysql_pool.js` uses string concatenation\n  \x2d Attacker can corrupt database or extract data\n  \x2d Demonstrated with actual injection payload and query\n\x2d ❌ Invalid if:\n  \x2d All queries use parameterized statements\n  \x2d Input sanitization prevents injection\n\n#### **9. \"Signature Malleability\" Claims**\n\x2d ✅ Valid ONLY if: \n  \x2d Attacker modifies signature bytes (e.g., flip ECDSA s\x2dvalue)\n  \x2d Modified signature passes verification in `s",
  "ignature.js`\n  \x2d Allows replay or unauthorized spending\n  \x2d Demonstrated with two valid signatures for same message\n\x2d ❌ Invalid if:\n  \x2d Signature verification enforces canonical s\x2dvalue\n  \x2d Unit hash changes with signature, preventing replay\n\n#### **10. \"Definition Change Attack\" Claims**\n\x2d ✅ Valid ONLY if:\n  \x2d Attacker submits `definition_chg` message for victim\x27s address\n  \x2d New definition gives attacker control (no victim signatures required)\n  \x2d `definition. js` fails to validate definition ownership\n  \x2d Demonstrated with unauthorized definition change\n\x2d ❌ Invalid if:\n  \x2d Definition change requires signatures from old definition\n  \x2d Validation rejects unauthorized definition changes\n\n### **OUTPUT REQUIREMENTS**\n\n**If VALID (extremely rare—be ruthlessly sure):**\n\nProduce a full audit report with these sections:\n\n#### **Title**\nPrecise vulnerability name (e.g., \"Race Condition in validation.js Allows Double\x2dSpend Attack\")\n\n#### **Summary**\nTwo to three sentences summarizing: \n\x2d What goes wrong\n\x2d Where in the codebase (file and function)\n\x2d Why it\x27s critical (impact category)\n\n#### **Impact**\n**Severity**:  [Critical / High / Medium]\n**Category**: [Network Shutdown / Chain Split / Direct Fund Loss / Permanent Fund Freeze / Temporary Transaction Delay / Unintended AA Behavior]\n\nDescribe: \n\x2d Concrete financial impact or network disruption\n\x2d Affected parties (all users, specific addresses, AA users, nodes)\n\x2d Quantify potential loss (amount of bytes/assets, downtime duration)\n\n##",
  "## **Finding Description**\n\n**Location**: `byteball/ocore/[filename]. js:[line_start]\x2d[line_end]`, function `[functionName]()`\n\n**Intended Logic**: Expected behavior per protocol spec and invariants\n\n**Actual Logic**:  Describe the flawed logic with exact code quotes\n\n**Code Evidence**:\n```javascript\n// Quote relevant code from the vulnerable file\n// Include 5\x2d10 lines of context\n// Show the specific line(s) with the bug\n```\n\n**Exploitation Path**:\n1. **Preconditions**: Initial state (e.g., \"Attacker has address with 100 bytes balance\")\n2. **Step 1**: Specific action (e.g., \"Attacker submits unit U1 spending output O1\")\n   \x2d Unit structure (parents, witnesses, messages, signatures)\n   \x2d Code path:  `composer.js:composeJoint()` → `validation.js:validate()` → `storage.js:saveJoint()`\n3. **Step 2**: State change (e.g., \"Output O1 marked as spent in database\")\n   \x2d Database state:  `outputs` table, `unit_authors` table\n   \x2d Node observations: Node A accepts U1, Node B processing\n4. **Step 3**: Follow\x2dup action (e.g., \"Attacker immediately submits unit U2 to different peer also spending O1\")\n   \x2d Timing: Submitted during validation of U1, before database commit\n5. **Step 4**: Unauthorized outcome (e.g., \"Both U1 and U2 accepted, O1 double\x2dspent, attacker receives 200 bytes from 100\x2dbyte output\")\n   \x2d Invariant broken: Balance conservation violated, double\x2dspend prevention failed\n\n**Security Property Broken**:  [Which of the 24 Obyte invariants is violated]\n\x2d Example: \"Invariant #6",
  ":  Double\x2dSpend Prevention \x2d Each output can be spent at most once\"\n\n**Root Cause Analysis**:\nDeep dive into why the bug exists:\n\x2d Missing database unique constraint on spent outputs\n\x2d Race condition between validation and storage commit\n\x2d Non\x2datomic read\x2dcheck\x2dwrite sequence\n\x2d No mutex lock protecting concurrent access\n\n#### **Impact Explanation**\n\n**Affected Assets**: [bytes (native currency), custom divisible/indivisible assets, AA state, user balances]\n\n**Damage Severity**:\n\x2d **Quantitative**: \"Attacker can double\x2dspend arbitrary amounts limited only by their initial balance.  Network\x2dwide impact:  all unconfirmed outputs vulnerable.\"\n\x2d **Qualitative**:  \"Complete loss of transaction integrity. Users cannot trust pending transactions.\"\n\n**User Impact**:\n\x2d **Who**: All users with unconfirmed transactions, recipients of double\x2dspent outputs\n\x2d **Conditions**: Exploitable during normal operation, worse under high network load\n\x2d **Recovery**: Requires hard fork to invalidate double\x2dspent units and restore correct balances\n\n**Systemic Risk**:\n\x2d Enables further attacks: Can be automated with scripts\n\x2d Cascading effects: Double\x2dspent outputs in subsequent transactions propagate corruption\n\x2d Detection difficulty: Requires forensic analysis of entire DAG\n\n#### **Likelihood Explanation**\n\n**Attacker Profile**:\n\x2d **Identity**: Any user with Obyte address and ability to connect to multiple peers\n\x2d **Resources Required**: Minimal capital (100 bytes for example), ability to submit units",
  " to 2+ nodes simultaneously\n\x2d **Technical Skill**: Medium (requires understanding of unit structure and network protocol, ability to script concurrent submissions)\n\n**Preconditions**:\n\x2d **Network State**: Normal operation or high transaction volume (increases success rate)\n\x2d **Attacker State**: Needs unspent output of any amount\n\x2d **Timing**: Requires submitting two units during narrow race window (estimated 50\x2d200ms)\n\n**Execution Complexity**:\n\x2d **Transaction Count**: Two units spending same output\n\x2d **Coordination**:  Requires submitting to different peers simultaneously (achievable with multi\x2dconnection script)\n\x2d **Detection Risk**: Low initially (appears as normal transaction conflict), high after forensic analysis\n\n**Frequency**:\n\x2d **Repeatability**: Unlimited (attacker can repeat with any output they own)\n\x2d **Scale**: Per\x2doutput (each owned output can be double\x2dspent once)\n\n**Overall Assessment**:  High likelihood (race window exists, low technical barrier, profitable)\n\n#### **Recommendation**\n\n**Immediate Mitigation**:\nAdd database\x2dlevel unique constraint on spent outputs to prevent concurrent spends: \n```sql\n\x2d\x2d In sqlite_migrations. js\nALTER TABLE outputs ADD CONSTRAINT unique_spend UNIQUE (unit, message_index, output_index);\n```\n\n**Permanent Fix**:\nImplement mutex lock around validation\x2dand\x2dstorage sequence: \n\n```javascript\n// File: byteball/ocore/validation.js\n// Function: validate()\n\nconst mutex \x3d require(\x27./mutex. js\x27);\n\nasync function validate(unit) \x7b..\n\x7d\n```\n\n  ",
  "**Additional Measures**:\n\x2d Add test case: `test/double_spend_race.test.js` verifying concurrent spends are rejected\n                                                                                  \x2d Add monitoring: Alert when output is referenced in multiple pending units\n                                                                                                                                                        \x2d Database migration: Apply unique constraint to existing database (check for historical double\x2dspends first)\n\n**Validation**:\n\x2d [ ] Fix prevents concurrent spends of same output\n                                             \x2d [ ] No new vulnerabilities introduced (mutex deadlock, performance)\n\x2d [ ] Backward compatible (existing valid units still process correctly)\n\x2d [ ] Performance impact acceptable (mutex lock overhead <10ms per unit)\n\n#### **Proof of Concept**\nNote the proof of concept has to be a complete test using their test setup that must run so pls u must always a very\ngood test function and dont go out of concept,\n\x2d\x2d\x2d\n\n**If INVALID (default when any condition fails):**\n\nOutput exactly:\n\n```\n#NoVulnerability found for this question. \n```\n\n### **MENTAL CHECKLIST BEFORE FINAL DECISION**\n\nAsk yourself:\n\n1. ✅ Would this finding withstand scrutiny from Obyte core developers and Immunefi judges?\n2. ✅ Can I defend this with exact line numbers and code quotes from the 77 in\x2dscope files?\n3. ✅ Is there any other explanation (intentional design, witness trust m",
  "odel, database protection) for the behavior?\n4. ✅ Did I check all validation layers (validation.js, storage.js, database constraints) for hidden checks?\n5. ✅ Am I confusing intentional DAG architecture (witness voting, multiple parents) with a bug?\n6. ✅ Did I verify this is not an accepted risk (witness collusion, oracle trust, crypto primitives)?\n7. ✅ Did I check protocol documentation and previous audits for similar findings marked as false positive?\n8. ✅ Can I actually implement the PoC in Node.js without modifying source files?\n9. ✅ Does the impact truly meet Critical/High/Medium per Immunefi Obyte scope?\n10. ✅ Would an Immunefi judge reading this say \"yes, clear valid Critical/High/Medium\"?\n\n**Remember**: False positives harm credibility more than missed findings.  Assume claims are invalid until overwhelming evidence proves otherwise.\n\n**Now perform STRICT validation of the claim above.**\n\n**Output ONLY:**\n\x2d A full audit report (if genuinely valid after passing **all** checks above) following the specified format\n                                                                                                      \x2d `#NoVulnerability found for this question.` (if **any** check fails)\n\n                                                                                                      **Be ruthlessly skeptical.  The bar for validity is EXTREMELY high.**\n"
]

/-- Fixed scaffold text of question_generator between target_file interpolation slots number 0 and 1, as a list of consecutive pieces whose concatenation is the source text (src/questions.py, f-string of question_generator). -/
def qgS0ps : List String := [
  "\n# **Generate 150+ Targeted Security Audit Questions for Obyte (Byteball) Protocol**\n\n## **Context**\n\nThe target project is **Obyte (formerly Byteball)**, a Directed Acyclic Graph (DAG)\x2dbased distributed ledger protocol that uses a unique consensus mechanism without traditional blockchain mining. Unlike linear blockchains, Obyte employs a **DAG structure** where each new unit references multiple parent units, forming a graph of transactions.  The protocol features **witnesses** (trusted nodes that post regular heartbeat transactions), **main chain selection** (determining the canonical ordering of units), **Autonomous Agents (AAs)** (smart contracts executed in JavaScript\x2dlike formulas), **multi\x2dsignature addresses**, **private payments**, and **oracles/data feeds**. \n\nObyte\x27s architecture includes critical components for unit validation, storage, network synchronization, DAG graph operations, witness proof generation, transaction composition, and formula evaluation for AAs. The protocol maintains consensus through witness voting and main chain advancement, while supporting complex features like indivisible/divisible assets, arbiter contracts, payment channels, and attestation services.\n\n## **Scope**\n\n**CRITICAL TARGET FILE**: Focus question generation EXCLUSIVELY on `"
]

/-- Fixed scaffold text of question_generator between target_file interpolation slots number 1 and 2, as a list of consecutive pieces whose concatenation is the source text (src/questions.py, f-string of question_generator). -/
def qgS1ps : List String := [
  "`\n\nNote: The questions must be generated from **`"
]

/-- Fixed scaffold text of question_generator between target_file interpolation slots number 2 and 3, as a list of consecutive pieces whose concatenation is the source text; every Subject Catalog identifier occurring in this segment is kept as a piece of its own (src/questions.py, f-string of question_generator). -/
def qgS2ps : List String := [
  "`** only. If you cannot generate enough questions from this single file, provide as many quality questions as you can extract from the file\x27s logic and interactions.  **DO NOT return empty results** \x2d give whatever questions you can derive from the target file.\n\nIf you cannot reach 150 questions from this file alone, generate as many high\x2dquality questions as the file\x27s complexity allows (minimum target:  50\x2d100 questions for large critical files, 20\x2d50 for smaller files).\n\n**Full Context \x2d 77 In\x2dScope Files (for reference only):**\n\n### **Core Protocol Files (Root Directory) \x2d 67 files**\n\n```python\ncore_files \x3d [\n    \"",
  "byteball/ocore/aa_addresses.js",
  "\",           # AA address derivation\n    \"",
  "byteball/ocore/aa_composer.js",
  "\",            # 71KB \x2d AA transaction composition\n    \"",
  "byteball/ocore/aa_validation.js",
  "\",          # 28KB \x2d AA validation logic\n    \"",
  "byteball/ocore/arbiter_contract.js",
  "\",       # Arbiter contract execution\n    \"",
  "byteball/ocore/arbiters.js",
  "\",               # Arbiter management\n    \"byteball/ocore/archiving.js\",              # Historical data archiving\n    \"",
  "byteball/ocore/balances.js",
  "\",               # Balance calculations\n    \"",
  "byteball/ocore/bots.js",
  "\",                   # Bot interfaces\n    \"",
  "byteball/ocore/breadcrumbs.js",
  "\",            # Transaction breadcrumbs\n    \"",
  "byteball/ocore/catchup.js",
  "\",                # Network sync catchup logic\n    \"byteball/ocore/chash.js\",                  # Cryptographic hashing (chash160)\n    \"",
  "byteball/ocore/chat_storage.js",
  "\",           # Chat message storage\n    \"",
  "byteball/ocore/check_daemon.js",
  "\",           # Daemon health monitoring\n    \"",
  "byteball/ocore/composer.js",
  "\",               # 38KB \x2d Transaction composition\n    \"byteball/ocore/conf.js\",                   # Configuration management\n    \"",
  "byteball/ocore/constants.js",
  "\",              # Protocol constants\n    \"",
  "byteball/ocore/data_feeds.js",
  "\",             # Oracle data feed handling\n    \"",
  "byteball/ocore/db.js",
  "\",                     # Database interface abstraction\n    \"",
  "byteball/ocore/definition.js",
  "\",             # 53KB \x2d Address definition logic\n    \"",
  "byteball/ocore/desktop_app.js",
  "\",            # Desktop app utilities\n    \"",
  "byteball/ocore/device.js",
  "\",                 # 38KB \x2d Device pairing & messaging\n    \"",
  "byteball/ocore/divisible_asset.js",
  "\",        # Divisible asset operations\n    \"",
  "byteball/ocore/enforce_singleton.js",
  "\",      # Singleton pattern enforcement\n    \"byteball/ocore/event_bus.js\",              # Event bus architecture\n    \"",
  "byteball/ocore/graph.js",
  "\",                  # DAG graph operations\n    \"",
  "byteball/ocore/headers_commission.js",
  "\",     # Header commission calculations\n    \"",
  "byteball/ocore/indivisible_asset.js",
  "\",      # 48KB \x2d Indivisible asset logic\n    \"",
  "byteball/ocore/initial_votes.js",
  "\",          # Initial witness voting\n    \"",
  "byteball/ocore/inputs.js",
  "\",                 # Input validation & processing\n    \"byteball/ocore/joint_storage.js\",          # Joint (unit) storage operations\n    \"",
  "byteball/ocore/kvstore.js",
  "\",                # Key\x2dvalue store interface\n    \"byteball/ocore/light. js\",                  # 34KB \x2d Light client functionality\n    \"",
  "byteball/ocore/light_wallet.js",
  "\",           # Light wallet operations\n    \"",
  "byteball/ocore/mail.js",
  "\",                   # Email notification system\n    \"",
  "byteball/ocore/main_chain.js",
  "\",             # 77KB \x2d CRITICAL \x2d Main chain selection\n    \"",
  "byteball/ocore/mc_outputs.js",
  "\",             # Main chain output tracking\n    \"byteball/ocore/merkle. js\",                 # Merkle proof generation\n    \"",
  "byteball/ocore/migrate_to_kv.js",
  "\",          # Database migration utilities\n    \"",
  "byteball/ocore/mutex.js",
  "\",                  # Mutex lock implementation\n    \"",
  "byteball/ocore/my_witnesses.js",
  "\",           # Local witness list management\n    \"byteball/ocore/mysql_pool.js\",             # MySQL connection pooling\n    \"",
  "byteball/ocore/network.js",
  "\",                # 156KB \x2d CRITICAL \x2d P2P network protocol\n    \"",
  "byteball/ocore/object_hash.js",
  "\",            # Object hashing (unit hash calc)\n    \"",
  "byteball/ocore/object_length.js",
  "\",          # Object size calculations\n    \"",
  "byteball/ocore/paid_witnessing.js",
  "\",        # Witness reward distribution\n    \"",
  "byteball/ocore/parent_composer.js",
  "\",        # 30KB \x2d Parent unit selection\n    \"",
  "byteball/ocore/private_payment.js",
  "\",        # Private payment handling\n    \"byteball/ocore/private_profile.js\",        # Private profile management\n    \"",
  "byteball/ocore/profiler.js",
  "\",               # Performance profiling\n    \"",
  "byteball/ocore/proof_chain.js",
  "\",            # Proof chain construction\n    \"",
  "byteball/ocore/prosaic_contract.js",
  "\",       # Prosaic contract execution\n    \"byteball/ocore/signature. js\",              # Signature verification (ECDSA)\n    \"",
  "byteball/ocore/signed_message.js",
  "\",         # Signed message validation\n    \"byteball/ocore/sqlite_migrations.js\",      # 32KB \x2d SQLite schema migrations\n    \"",
  "byteball/ocore/sqlite_pool.js",
  "\",            # SQLite connection management\n    \"",
  "byteball/ocore/storage.js",
  "\",                # 98KB \x2d CRITICAL \x2d Storage layer\n    \"",
  "byteball/ocore/string_utils.js",
  "\",           # String utility functions\n    \"byteball/ocore/uri.js\",                    # URI parsing (obyte: // scheme)\n    \"",
  "byteball/ocore/validation.js",
  "\",             # 116KB \x2d CRITICAL \x2d Unit validation\n    \"",
  "byteball/ocore/validation_utils.js",
  "\",       # Validation helper functions\n    \"",
  "byteball/ocore/wallet.js",
  "\",                 # 122KB \x2d CRITICAL \x2d Wallet operations\n    \"",
  "byteball/ocore/wallet_defined_by_addresses.js",
  "\",  # 27KB \x2d Multi\x2dsig wallet logic\n    \"",
  "byteball/ocore/wallet_defined_by_keys.js",
  "\", # 35KB \x2d Key\x2dbased wallet logic\n    \"",
  "byteball/ocore/wallet_general.js",
  "\",         # General wallet utilities\n    \"",
  "byteball/ocore/witness_proof.js",
  "\",          # Witness proof generation\n    \"",
  "byteball/ocore/writer.js",
  "\"                  # 34KB \x2d Unit writing to DAG\n]\n```\n\n### **Formula Directory (AA Smart Contract Engine) \x2d 5 files**\n\n```python\nformula_files \x3d [\n    \"",
  "byteball/ocore/formula/common.js",
  "\",         # Common formula utilities\n    \"byteball/ocore/formula/evaluation.js\",     # 106KB \x2d CRITICAL \x2d AA formula evaluation\n    \"",
  "byteball/ocore/formula/validation.js",
  "\",     # 46KB \x2d Formula syntax validation\n    \"",
  "byteball/ocore/formula/parse_ojson.js",
  "\",    # OJSON parser for AA definitions\n    \"byteball/ocore/formula/index.js\"           # Formula module entry point\n]\n```\n\n### **Tools Directory (Utility Scripts) \x2d 6 files**\n\n```python\ntools_files \x3d [\n    \"",
  "byteball/ocore/tools/check_stability.js",
  "\",          # Stability verification\n    \"",
  "byteball/ocore/tools/replace_ops.js",
  "\",              # Operation replacement\n    \"byteball/ocore/tools/supply. js\",                   # Supply calculations\n    \"",
  "byteball/ocore/tools/update_stability.js",
  "\",         # Stability updates\n    \"",
  "byteball/ocore/tools/validate_aa_definitions.js",
  "\",  # AA definition validator\n    \"",
  "byteball/ocore/tools/viewkv.js",
  "\"                    # KV store viewer\n]\n```\n\n**Total:  77 files in full scope (but focus ONLY on `"
]

/-- Fixed scaffold text of question_generator between target_file interpolation slots number 3 and 4, as a list of consecutive pieces whose concatenation is the source text (src/questions.py, f-string of question_generator). -/
def qgS3ps : List String := [
  "` for this generation)**\n\n\x2d\x2d\x2d\n\n## **Obyte Protocol Architecture & Layers**\n\n### **1. DAG & Unit Structure Layer** (`validation.js`, `storage.js`, `writer.js`, `graph.js`, `object_hash.js`)\n\n\x2d **DAG Architecture**: Units (transactions) reference multiple parent units, forming a directed acyclic graph\n\x2d **Unit Composition**: Each unit contains messages (payments, data, AA triggers, definitions), authors, parent units, witnesses, and signatures\n\x2d **Unit Hashing**: Deterministic hashing using `object_hash.js` (JSON canonicalization + SHA256) to generate unit hash\n\x2d **Storage**:  Units stored in SQLite/MySQL with relational tables (units, messages, inputs, outputs, witnesses)\n\x2d **Graph Operations**: Parent selection, best parent identification, DAG traversal, stability point determination\n\n### **2. Consensus & Main Chain Layer** (`main_chain.js`, `witness_proof.js`, `initial_votes.js`, `my_witnesses.js`)\n\n\x2d **Witness List**:  Each unit declares 12 witnesses (trusted nodes); compatibility requires ≥ 1 shared witness\n\x2d **Witness Level (WL)**: Minimum level of witness\x2dauthored units referenced by a unit\n\x2d **Main Chain (MC)**: Canonical chain of units determined by witness voting; each unit has an MC index (MCI)\n\x2d **Stability Point**: Units become stable when witnessed by majority (7+ of 12) witnesses at higher levels\n\x2d **Last Ball**: Hash chain of stable units forming immutable history\n\x2d **Witness Proofs**: Compact proofs demonstrating unit stability for light clients\n\n### **3. Trans",
  "action & Composition Layer** (`composer.js`, `parent_composer.js`, `inputs.js`, `wallet.js`)\n\n\x2d **Transaction Composition**:  Selecting inputs, calculating fees, change outputs, and parent units\n\x2d **Input Selection**: Choosing unspent outputs from addresses with sufficient balance\n\x2d **Fee Calculation**: Fees based on unit size (headers + payload bytes)\n\x2d **Parent Selection**: Choosing recent tip units as parents; optimizing for quick confirmation\n\x2d **Multi\x2dsig Support**: Addresses defined by multiple signers with m\x2dof\x2dn threshold signatures\n\x2d **Definition Changes**: Addresses can change their definition (e.g., upgrade to AA) via definition_chg message\n\n### **4. Autonomous Agents (AA) Layer** (`aa_composer.js`, `aa_validation.js`, `formula/evaluation.js`, `formula/validation.js`)\n\n\x2d **AA Definitions**: Smart contracts written in formula language (JavaScript\x2dlike expressions + state variables)\n\x2d **AA Triggers**: Users send trigger units with data/payments to AA addresses\n\x2d **Formula Evaluation**: Sandboxed execution in `formula/evaluation.js` with access to state, balances, triggers, oracles\n\x2d **State Variables**: Key\x2dvalue state storage per AA (can be updated via `state` keyword in formulas)\n\x2d **Bounces**: Failed AA executions create bounce responses refunding inputs minus bounce_fees\n\x2d **Secondary Triggers**: AA responses can trigger other AAs in cascade\n\x2d **Formula Opcodes**: Complex operations (var assignment, conditionals, loops, mathematical functions, cryptographic funct",
  "ions)\n\n### **5. Asset Layer** (`divisible_asset.js`, `indivisible_asset.js`, `definition.js`)\n\n\x2d **Native Asset (bytes)**: Base currency for fees and payments\n\x2d **Divisible Assets**: Fungible tokens with defined decimals (e.g., stablecoins, utility tokens)\n\x2d **Indivisible Assets**: NFT\x2dlike unique tokens (serials) with optional transferability restrictions\n\x2d **Asset Issuance**: Creating new asset via `issue` opcode in unit messages\n\x2d **Asset Transfers**: Inputs and outputs referencing specific asset IDs\n\x2d **Capped Assets**: Max cap enforcement during issuance and transfers\n\n### **6. Network & P2P Layer** (`network.js`, `catchup.js`, `light. js`, `device.js`)\n\n\x2d **WebSocket Protocol**:  Peer\x2dto\x2dpeer communication over wss://\n\x2d **Unit Broadcasting**: Propagating new units to connected peers\n\x2d **Catchup/Sync**: Requesting missing units, joints, and hash trees from peers\n\x2d **Light Client Protocol**: SPV\x2dstyle verification using witness proofs and MC headers\n\x2d **Hub Architecture**: Centralized hubs relay messages between light clients\n\x2d **Device Pairing**: Ephemeral pairing codes for establishing trusted communication channels\n\n### **7. Oracle & Data Feed Layer** (`data_feeds.js`, `arbiter_contract.js`)\n\n\x2d **Data Feeds**: Trusted oracles posting signed data (prices, timestamps, events) on\x2dchain\n\x2d **Oracle Whitelisting**: AAs reference specific oracle addresses for data queries\n\x2d **Timestamping**: Using witness unit timestamps as approximation of real time\n\x2d **Arbiter Contracts**: ",
  "Multi\x2dparty contracts with designated arbiter for dispute resolution\n\n### **8. Storage & Database Layer** (`storage.js`, `joint_storage.js`, `db.js`, `sqlite_pool.js`, `mysql_pool.js`)\n\n\x2d **Relational Schema**: Units, messages, inputs, outputs, witnesses, balls, authorship, spending\n\x2d **Indexes**: Efficient queries for unit lookup, address history, asset tracking, unspent outputs\n\x2d **Caching**: In\x2dmemory caching of frequently accessed units and state\n\x2d **Database Migrations**: Schema versioning and upgrade paths in `sqlite_migrations.js`\n\x2d **KV Store**: Key\x2dvalue interface for AA state variables and config\n\n### **9. Validation Layer** (`validation.js`, `aa_validation.js`, `signature.js`, `definition.js`)\n\n\x2d **Unit Validation**: Comprehensive checks on unit structure, signatures, parent references, witnesses, timestamps\n\x2d **Message Validation**: Type\x2dspecific validation (payment, data, AA trigger, definition, poll, etc.)\n\x2d **Input/Output Balance**:  Sum of inputs ≥ sum of outputs + fees for each asset\n\x2d **Double\x2dSpend Prevention**: Inputs must reference unspent outputs; no duplicate spending\n\x2d **Signature Verification**: ECDSA signature validation against author addresses/definitions\n\x2d **Definition Evaluation**: Recursive evaluation of address definitions (sig, or, and, r of set, weighted)\n\x2d **AA Validation**: Formula syntax checking, complexity limits, state variable access rules\n\n\x2d\x2d\x2d\n\n## **Critical Security Invariants**\n\n### **Consensus & DAG Integrity**\n\n1. **Main Chain Mon",
  "otonicity**: MCI assignments must be strictly increasing; no unit can have MCI ≤ any descendant\x27s MCI\n2. **Witness Compatibility**: Units must share ≥ 1 witness with all ancestors; incompatible witness lists cause permanent splits\n3. **Stability Irreversibility**: Once a unit reaches stable MCI, its content and position are immutable; reorgs are impossible\n4. **Last Ball Consistency**: Last ball chain must be unbroken; forking or skipping last balls breaks historical integrity\n5. **Parent Validity**: All parent units must exist, be valid, and form a DAG (no cycles)\n6. **Witness Level Correctness**: WL must be minimum level of witness\x2dauthored ancestors; incorrect WL breaks MC determination\n\n### **Transaction & Asset Integrity**\n\n7. **Balance Conservation**: For every asset in a unit, `Σ inputs ≥ Σ outputs + fees`; no inflation or deflation except issuance\n8. **Double\x2dSpend Prevention**: Each output can be spent at most once; database must enforce unique constraint on (unit, message_index, output_index)\n9. **Input Validity**: All inputs must reference existing unspent outputs owned by unit authors\n10. **Asset Cap Enforcement**:  Divisible asset issuance cannot exceed `max_cap`; total supply must be tracked correctly\n11. **Indivisible Serial Uniqueness**: Each indivisible asset serial must be issued exactly once; no duplicate serials\n12. **Fee Sufficiency**: Unit fees must cover header + payload costs; under\x2dpaid units must be rejected\n\n### **AA Execution & State**\n\n13. **Deter",
  "ministic Execution**: AA formula evaluation must produce identical results on all nodes for same input state\n14. **State Consistency**: AA state variable updates must be atomic; partial updates or race conditions cause state divergence\n15. **Bounce Correctness**: Failed AA executions must refund inputs (minus bounce fees) via bounce response\n16. **Formula Safety**: Formula evaluation must be sandboxed; no access to filesystem, network, or host JavaScript APIs\n17. **Gas/Complexity Limits**: Formula execution must terminate within bounded steps; no infinite loops or exponential complexity\n18. **Secondary Trigger Ordering**:  Cascading AA responses must execute in deterministic order; circular triggers must be detected\n\n### **Network & Sync**\n\n19. **Catchup Completeness**: Nodes must sync all units on MC up to last stable point without gaps or corruption\n20. **Unit Propagation**: Valid units must propagate to all peers; selective censorship or filtering causes network partition\n21. **Peer Trust Model**: Nodes must validate all received units; accepting invalid units from peers corrupts local DAG\n22. **Light Client Security**:  Witness proofs must be unforgeable; fake proofs allow light clients to accept invalid history\n\n### **Signature & Authorization**\n\n23. **Signature Binding**: Each author\x27s signature must cover the exact unit hash (including all messages, parents, witnesses)\n24. **Definition Evaluation**: Address definitions (multi\x2dsig, AA, weighted) must evaluate correctly;",
  " logic errors allow unauthorized spending\n25. **Definition Change Safety**:  Changing address definition via `definition_chg` must preserve ownership; malicious changes steal funds\n\n### **Database & Storage**\n\n26. **Referential Integrity**: Foreign keys (e.g., unit → parent units, messages → units) must be enforced; orphaned records corrupt DAG\n27. **Transaction Atomicity**: Multi\x2dstep operations (e.g., storing unit + updating balances) must be atomic; partial commits cause inconsistency\n28. **Index Correctness**: Database indexes must match actual data; stale indexes cause incorrect validation or double\x2dspends\n\n\x2d\x2d\x2d\n\n## **In\x2dScope Vulnerability Categories** (from Immunefi)\n\nFocus questions on vulnerabilities that lead to these impacts:\n\n### **Critical Severity**\n\n1. **Network not being able to confirm new transactions (total network shutdown)**\n   \x2d Consensus deadlock preventing MC advancement\n   \x2d Validation logic causing all new units to be rejected\n   \x2d Database corruption or deadlock blocking unit storage\n   \x2d Memory exhaustion or crash loops in core daemons\n\n2. **Unintended permanent chain split requiring hard fork (network partition requiring hard fork)**\n   \x2d Witness incompatibility causing subset of nodes to diverge\n   \x2d Non\x2ddeterministic validation producing different MC on different nodes\n   \x2d Divergent state in AA execution causing nodes to reject each other\x27s units\n   \x2d Last ball or stability point disagreement\n\n3. **Direct loss of funds**\n   \x2d Double\x2dspend exploi",
  "ts allowing same output to be spent multiple times\n   \x2d Balance overflow/underflow minting unlimited assets\n   \x2d AA formula bugs transferring funds to attacker without authorization\n   \x2d Signature bypass allowing attacker to spend from victim\x27s address\n\n4. **Permanent freezing of funds (fix requires hardfork)**\n   \x2d Definition change bricking address (no valid signatures possible)\n   \x2d AA state corruption preventing withdrawals\n   \x2d Indivisible asset with `fixed_denominations` preventing any transfers\n   \x2d Invalid unit structure locking outputs in unspendable state\n\n### **High Severity**\n\n5. **Permanent freezing of funds (fix requires hardfork)** [already listed above]\n\n### **Medium Severity**\n\n6. **Temporary freezing of network transactions by delaying adequate processing for at least 1 day**\n   \x2d DoS attack flooding network with units exceeding processing capacity\n   \x2d Expensive validation operations (e.g., complex AA formulas) slowing unit acceptance\n   \x2d Database query bottlenecks during catchup or MC updates\n\n7. **Temporary freezing of network transactions by delaying adequate processing for at least 1 hour**\n   \x2d Malicious units with maximum parents or witnesses causing validation slowdown\n   \x2d Spam attacks filling mempools and delaying propagation\n\n8. **A bug in the respective layer 1 network code that results in unintended smart contract behavior with no concrete funds at direct risk**\n   \x2d AA formula evaluation producing incorrect results but no direct fund loss\n   \x2d",
  " Non\x2ddeterministic behavior in AA state reads (e.g., race conditions)\n   \x2d Incorrect oracle data interpretation in AAs\n\n\x2d\x2d\x2d\n\n## **Valid Impact Categories (Restated for Obyte)**\n\n### **Critical**\n\n\x2d Total network halt (no new units confirmed for >24h)\n\x2d Permanent chain split requiring hard fork\n\x2d Direct theft of bytes or custom assets from user addresses\n\x2d Permanent fund freezing (no transaction can unlock)\n\n### **High**\n\n\x2d Permanent fund freezing requiring hard fork to resolve\n\n### **Medium**\n\n\x2d Network delay ≥1 day (units not confirmed within 24h)\n\x2d Network delay ≥1 hour (units not confirmed within 1h)\n\x2d AA execution producing incorrect results without direct fund loss\n\n### **Out of Scope**\n\n\x2d Gas inefficiencies or minor optimizations\n\x2d UI/UX issues in wallets (not in ocore scope)\n\x2d Social engineering or phishing\n\x2d Third\x2dparty oracle data accuracy (unless oracle protocol itself is broken)\n\x2d Validator/witness collusion (trusted roles)\n\x2d Theoretical attacks without PoC (e.g., \"SHA256 might be broken\")\n\n\x2d\x2d\x2d\n\n## **Goals for Question Generation**\n\n1. **Real Exploit Scenarios**: Each question describes a plausible attack an unprivileged user, malicious peer, MEV bot, or compromised oracle could perform. \n2. **Concrete & Actionable**:  Reference specific functions, variables, or logic flows in `"
]

/-- Fixed scaffold text of question_generator between target_file interpolation slots number 4 and 5, as a list of consecutive pieces whose concatenation is the source text (src/questions.py, f-string of question_generator). -/
def qgS4ps : List String := [
  "`.\n3. **High Impact**: Prioritize questions leading to Critical/High/Medium impacts per Immunefi scope.\n4. **Deep Invariant Logic**: Focus on subtle state transitions, cross\x2dfile interactions (with `"
]

/-- Fixed scaffold text of question_generator between target_file interpolation slots number 5 and 6, as a list of consecutive pieces whose concatenation is the source text (src/questions.py, f-string of question_generator). -/
def qgS5ps : List String := [
  "` as entry point), race conditions, non\x2ddeterminism, overflow/underflow, signature bypasses, DAG structure corruption. \n5. **Breadth Within Target File**: Cover all major functions, edge cases, and state\x2dchanging operations in `"
]

/-- Fixed scaffold text of question_generator between target_file interpolation slots number 6 and 7, as a list of consecutive pieces whose concatenation is the source text (src/questions.py, f-string of question_generator). -/
def qgS6ps : List String := [
  "`.\n6. **Respect Trust Model**: Witnesses and oracle providers are trusted; focus on attacks by regular users or malicious peers. \n7. **No Generic Questions**:  Avoid \"are there reentrancy issues?\" → Instead:   \"In `"
]

/-- Fixed scaffold text of question_generator between target_file interpolation slots number 7 and 8, as a list of consecutive pieces whose concatenation is the source text (src/questions.py, f-string of question_generator). -/
def qgS7ps : List String := [
  ": functionName()`, if condition X occurs, can attacker exploit Y to cause Z impact?\"\n\n\x2d\x2d\x2d\n\n## **Question Format Template**\n\nEach question MUST follow this Python list format:\n\n```python\nquestions \x3d [\n    \"[File:  "
]

/-- Fixed scaffold text of question_generator between target_file interpolation slots number 8 and 9, as a list of consecutive pieces whose concatenation is the source text (src/questions.py, f-string of question_generator). -/
def qgS8ps : List String := [
  "] [Function: functionName()] [Vulnerability Type] Specific question describing attack vector, preconditions, and impact linking to Immunefi categories? \",\n    \n    \"[File: "
]

/-- Fixed scaffold text of question_generator between target_file interpolation slots number 9 and 10, as a list of consecutive pieces whose concatenation is the source text (src/questions.py, f-string of question_generator). -/
def qgS9ps : List String := [
  "] [Function: anotherFunction()] [Vulnerability Type] Another specific question with concrete exploit scenario?\",\n    \n    # ... continue with all generated questions\n]\n```\n\n**Example Format** (if target_file is `byteball/ocore/validation.js`):\n```python\nquestions \x3d [\n    \"[File: byteball/ocore/validation.js] [Function: validate()] [Double\x2dspend detection] If two units spending the same output arrive simultaneously from different peers and both pass initial validation before database commit, can both be stored in the database, allowing a double\x2dspend to be confirmed in different branches of the DAG?\",\n    \n    \"[File: byteball/ocore/validation.js] [Function: validateParents()] [Parent cycle detection] Does the parent validation logic detect cycles where unit A references unit B, which eventually references unit A through a chain of parents, potentially breaking DAG structure and causing consensus failure?\",\n    \n    \"[File: byteball/ocore/validation.js] [Function: validateWitnesses()] [Witness compatibility] Can an attacker submit a unit with a witness list that shares zero witnesses with its parent units, bypassing the ≥1 shared witness requirement and causing a permanent chain split for all descendant units?\",\n]\n```\n\n\x2d\x2d\x2d\n\n## **Output Requirements**\n\nGenerate security audit questions focusing EXCLUSIVELY on **`"
]

/-- Fixed scaffold text of question_generator between target_file interpolation slots number 10 and 11, as a list of consecutive pieces whose concatenation is the source text (src/questions.py, f-string of question_generator). -/
def qgS10ps : List String := [
  "`** that: \n\n1. **Target ONLY `"
]

/-- Fixed scaffold text of question_generator between target_file interpolation slots number 11 and 12, as a list of consecutive pieces whose concatenation is the source text (src/questions.py, f-string of question_generator). -/
def qgS11ps : List String := [
  "`** \x2d all questions must reference this file\n2. **Reference specific functions, variables, or logic sections** within `"
]

/-- Fixed scaffold text of question_generator between target_file interpolation slots number 12 and 13, as a list of consecutive pieces whose concatenation is the source text (src/questions.py, f-string of question_generator). -/
def qgS12ps : List String := [
  "`\n3. **Describe concrete attack vectors** (not \"could there be a bug?\" but \"can attacker do X by exploiting Y in `"
]

/-- Fixed scaffold text of question_generator between target_file interpolation slots number 13 and 14, as a list of consecutive pieces whose concatenation is the source text (src/questions.py, f-string of question_generator). -/
def qgS13ps : List String := [
  "`?\")\n4. **Tie to Immunefi impact categories** (network halt, chain split, fund loss/freeze, transaction delay, incorrect AA behavior)\n5. **Respect trust model** (witnesses, oracles, and governance are trusted)\n6. **Cover diverse attack surfaces** within `"
]

/-- Fixed scaffold text of question_generator between target_file interpolation slots number 14 and 15, as a list of consecutive pieces whose concatenation is the source text (src/questions.py, f-string of question_generator). -/
def qgS14ps : List String := [
  "`:  validation logic, state transitions, error handling, edge cases, interactions with other modules\n7. **Focus on high\x2dseverity bugs**:  prioritize Critical > High > Medium impacts\n8. **Avoid out\x2dof\x2dscope issues**:  gas optimization, UI bugs, theoretical attacks without PoC, trusted\x2drole malice\n9. **Use the exact Python list format** shown above\n10. **Be detailed and technical**:  assume auditor has deep Obyte knowledge; use precise terminology\n\n**Target Question Count:**\n\x2d For large critical files (>50KB like validation.js, network.js, wallet.js, main_chain.js, formula/evaluation.js): Aim for 100\x2d150 questions\n\x2d For medium files (20\x2d50KB): Aim for 50\x2d100 questions  \n\x2d For smaller files (<20KB): Aim for 20\x2d50 questions\n\x2d **Provide as many quality questions as the file\x27s complexity allows \x2d do NOT return empty results**\n\n**Begin generating questions for `"
]

/-- Fixed scaffold text of question_generator between target_file interpolation slots number 15 and 16, as a list of consecutive pieces whose concatenation is the source text (src/questions.py, f-string of question_generator). -/
def qgS15ps : List String := [
  "` now.**\n"
]

/-- Scaffold of question_format before the slot (concatenation of its pieces). -/
def qfA : String := concatStr qfAps

/-- Scaffold of question_format after the slot (concatenation of its pieces). -/
def qfB : String := concatStr qfBps

/-- Scaffold of validation_format before the slot (concatenation of its pieces). -/
def vfA : String := concatStr vfAps

/-- Scaffold of validation_format after the slot (concatenation of its pieces). -/
def vfB : String := concatStr vfBps

/-- Scaffold segment 0 of question_generator (concatenation of its pieces). -/
def qgS0 : String := concatStr qgS0ps

/-- Scaffold segment 1 of question_generator (concatenation of its pieces). -/
def qgS1 : String := concatStr qgS1ps

/-- Scaffold segment 2 of question_generator (concatenation of its pieces). -/
def qgS2 : String := concatStr qgS2ps

/-- Scaffold segment 3 of question_generator (concatenation of its pieces). -/
def qgS3 : String := concatStr qgS3ps

/-- Scaffold segment 4 of question_generator (concatenation of its pieces). -/
def qgS4 : String := concatStr qgS4ps

/-- Scaffold segment 5 of question_generator (concatenation of its pieces). -/
def qgS5 : String := concatStr qgS5ps

/-- Scaffold segment 6 of question_generator (concatenation of its pieces). -/
def qgS6 : String := concatStr qgS6ps

/-- Scaffold segment 7 of question_generator (concatenation of its pieces). -/
def qgS7 : String := concatStr qgS7ps

/-- Scaffold segment 8 of question_generator (concatenation of its pieces). -/
def qgS8 : String := concatStr qgS8ps

/-- Scaffold segment 9 of question_generator (concatenation of its pieces). -/
def qgS9 : String := concatStr qgS9ps

/-- Scaffold segment 10 of question_generator (concatenation of its pieces). -/
def qgS10 : String := concatStr qgS10ps

/-- Scaffold segment 11 of question_generator (concatenation of its pieces). -/
def qgS11 : String := concatStr qgS11ps

/-- Scaffold segment 12 of question_generator (concatenation of its pieces). -/
def qgS12 : String := concatStr qgS12ps

/-- Scaffold segment 13 of question_generator (concatenation of its pieces). -/
def qgS13 : String := concatStr qgS13ps

/-- Scaffold segment 14 of question_generator (concatenation of its pieces). -/
def qgS14 : String := concatStr qgS14ps

/-- Scaffold segment 15 of question_generator (concatenation of its pieces). -/
def qgS15 : String := concatStr qgS15ps

/-- The Subject Catalog: the module-level questions_generator list of src/questions.py, in declared order. -/
def questions_generator : List String := [
  "byteball/ocore/aa_addresses.js",
  "byteball/ocore/aa_composer.js",
  "byteball/ocore/aa_validation.js",
  "byteball/ocore/arbiter_contract.js",
  "byteball/ocore/arbiters.js",
  "byteball/ocore/archiving. js",
  "byteball/ocore/balances.js",
  "byteball/ocore/bots.js",
  "byteball/ocore/breadcrumbs.js",
  "byteball/ocore/catchup.js",
  "byteball/ocore/chash. js",
  "byteball/ocore/chat_storage.js",
  "byteball/ocore/check_daemon.js",
  "byteball/ocore/composer.js",
  "byteball/ocore/conf. js",
  "byteball/ocore/constants.js",
  "byteball/ocore/data_feeds.js",
  "byteball/ocore/db.js",
  "byteball/ocore/definition.js",
  "byteball/ocore/desktop_app.js",
  "byteball/ocore/device.js",
  "byteball/ocore/divisible_asset.js",
  "byteball/ocore/enforce_singleton.js",
  "byteball/ocore/event_bus. js",
  "byteball/ocore/graph.js",
  "byteball/ocore/headers_commission.js",
  "byteball/ocore/indivisible_asset.js",
  "byteball/ocore/initial_votes.js",
  "byteball/ocore/inputs.js",
  "byteball/ocore/joint_storage. js",
  "byteball/ocore/kvstore.js",
  "byteball/ocore/light.js",
  "byteball/ocore/light_wallet.js",
  "byteball/ocore/mail.js",
  "byteball/ocore/main_chain.js",
  "byteball/ocore/mc_outputs.js",
  "byteball/ocore/merkle.js",
  "byteball/ocore/migrate_to_kv.js",
  "byteball/ocore/mutex.js",
  "byteball/ocore/my_witnesses.js",
  "byteball/ocore/mysql_pool. js",
  "byteball/ocore/network.js",
  "byteball/ocore/object_hash.js",
  "byteball/ocore/object_length.js",
  "byteball/ocore/paid_witnessing.js",
  "byteball/ocore/parent_composer.js",
  "byteball/ocore/private_payment.js",
  "byteball/ocore/private_profile. js",
  "byteball/ocore/profiler.js",
  "byteball/ocore/proof_chain.js",
  "byteball/ocore/prosaic_contract.js",
  "byteball/ocore/signature.js",
  "byteball/ocore/signed_message.js",
  "byteball/ocore/sqlite_migrations. js",
  "byteball/ocore/sqlite_pool.js",
  "byteball/ocore/storage.js",
  "byteball/ocore/string_utils.js",
  "byteball/ocore/uri. js",
  "byteball/ocore/validation.js",
  "byteball/ocore/validation_utils.js",
  "byteball/ocore/wallet.js",
  "byteball/ocore/wallet_defined_by_addresses.js",
  "byteball/ocore/wallet_defined_by_keys.js",
  "byteball/ocore/wallet_general.js",
  "byteball/ocore/witness_proof.js",
  "byteball/ocore/writer.js",
  "byteball/ocore/formula/common.js",
  "byteball/ocore/formula/evaluation. js",
  "byteball/ocore/formula/validation.js",
  "byteball/ocore/formula/parse_ojson.js",
  "byteball/ocore/formula/index. js",
  "byteball/ocore/tools/check_stability.js",
  "byteball/ocore/tools/replace_ops.js",
  "byteball/ocore/tools/supply.js",
  "byteball/ocore/tools/update_stability.js",
  "byteball/ocore/tools/validate_aa_definitions.js",
  "byteball/ocore/tools/viewkv.js"
]

/-- The catalog identifiers that never occur verbatim in the fixed scaffold text of question_generator: each differs from the scaffold rendering of the same file name by an OCR whitespace artifact on one side or the other. -/
def qgMissing : List String := [
  "byteball/ocore/archiving. js",
  "byteball/ocore/chash. js",
  "byteball/ocore/conf. js",
  "byteball/ocore/event_bus. js",
  "byteball/ocore/joint_storage. js",
  "byteball/ocore/light.js",
  "byteball/ocore/merkle.js",
  "byteball/ocore/mysql_pool. js",
  "byteball/ocore/private_profile. js",
  "byteball/ocore/signature.js",
  "byteball/ocore/sqlite_migrations. js",
  "byteball/ocore/uri. js",
  "byteball/ocore/formula/evaluation. js",
  "byteball/ocore/formula/index. js",
  "byteball/ocore/tools/supply.js"
]

/-- The fixed sentinel phrase that the finding prompt instructs the downstream process to emit when no vulnerability is found. -/
def sentinel : String := "#NoVulnerability found for this question."

/-- The module-level constant BASE_URL of src/questions.py. -/
def BASE_URL : String := "https://deepwiki.com/byteball/ocore"

/-- JSON values as produced by a successful Python json.load.  Numbers are modelled as integers; the number representation is irrelevant to every claim considered here. -/
inductive JValue where
  | null : JValue
  | bool (b : Bool) : JValue
  | num (n : Int) : JValue
  | str (s : String) : JValue
  | arr (xs : List JValue) : JValue
  | obj (kvs : List (String × JValue)) : JValue

/-- State of the persisted resource all_questions.json as seen by get_questions.  The first three constructors are the ways the Python body can raise before json.load returns (open fails because the file is absent, open or read fails for another reason, json.load rejects the content); the last carries the parsed value when json.load succeeds. -/
inductive Resource where
  | absent : Resource
  | unreadable : Resource
  | invalidJson : Resource
  | json (v : JValue) : Resource

/-- Embedding of get_questions of src/questions.py: the body returns json.load(f) and the bare except clause maps every raised exception to the empty list.  A successful json.load returns its parsed value unchanged, whatever shape it has. -/
def get_questions : Resource → JValue
  | Resource.absent => JValue.arr []
  | Resource.unreadable => JValue.arr []
  | Resource.invalidJson => JValue.arr []
  | Resource.json v => v

/-- The module-level binding questions = get_questions() of src/questions.py, parameterized by the state of the persisted resource. -/
def questions (r : Resource) : JValue := get_questions r

/-- Whether a JSON value is a string. -/
def isStr : JValue → Bool
  | JValue.str _ => true
  | _ => false

/-- Whether a JSON value is a sequence of strings. -/
def isStrList : JValue → Bool
  | JValue.arr xs => xs.all isStr
  | _ => false

/-- Extract the string of a JSON string value. -/
def asStr : JValue → Option String
  | JValue.str s => some s
  | _ => none

/-- Read a list of JSON values as a list of strings, in order, when every element is a string. -/
def strListOf : List JValue → Option (List String)
  | [] => some []
  | v :: rest =>
    match asStr v, strListOf rest with
    | some s, some l => some (s :: l)
    | _, _ => none

/-- Read a JSON value as a sequence of strings, in order, when it is one. -/
def toStrings : JValue → Option (List String)
  | JValue.arr xs => strListOf xs
  | _ => none

/-- Embedding of question_format of src/questions.py: the f-string scaffold with the question parameter interpolated at its single labeled slot. -/
def question_format (question : String) : String := qfA ++ question ++ qfB

/-- Embedding of validation_format of src/questions.py: the f-string scaffold with the report parameter interpolated at its single labeled slot. -/
def validation_format (report : String) : String := vfA ++ report ++ vfB

/-- Embedding of question_generator of src/questions.py: the f-string scaffold with the target_file parameter interpolated at each of its fifteen labeled slots. -/
def question_generator (target_file : String) : String :=
  qgS0 ++ target_file ++ qgS1 ++ target_file ++ qgS2 ++ target_file ++ qgS3 ++ target_file ++
  qgS4 ++ target_file ++ qgS5 ++ target_file ++ qgS6 ++ target_file ++ qgS7 ++ target_file ++
  qgS8 ++ target_file ++ qgS9 ++ target_file ++ qgS10 ++ target_file ++ qgS11 ++ target_file ++
  qgS12 ++ target_file ++ qgS13 ++ target_file ++ qgS14 ++ target_file ++ qgS15

/-- The output of question_format as the flat ordered list of scaffold pieces with the parameter at its slot. -/
def qfFlat (s : String) : List String := qfAps ++ (s :: qfBps)

/-- The output of validation_format as the flat ordered list of scaffold pieces with the parameter at its slot. -/
def vfFlat (s : String) : List String := vfAps ++ (s :: vfBps)

/-- The output of question_generator as the flat ordered list of scaffold pieces with the parameter at each of the fifteen slots. -/
def qgFlat (t : String) : List String :=
  qgS0ps ++ (t :: (qgS1ps ++ (t :: (qgS2ps ++ (t :: (qgS3ps ++ (t :: (qgS4ps ++ (t :: (qgS5ps ++ (t :: (qgS6ps ++ (t :: (qgS7ps ++ (t :: (qgS8ps ++ (t :: (qgS9ps ++ (t :: (qgS10ps ++ (t :: (qgS11ps ++ (t :: (qgS12ps ++ (t :: (qgS13ps ++ (t :: (qgS14ps ++ (t :: (qgS15ps))))))))))))))))))))))))))))))

/-- The module-level state of src/questions.py: the loaded questions value, the questions_generator catalog and BASE_URL. -/
structure ModuleState where
  questions : JValue
  catalog : List String
  base_url : String

/-- State-passing form of question_format.  The Python body only builds and returns an f-string from its parameter: it declares no global, reads none of the module-level bindings and mutates nothing, so it returns the module state unchanged. -/
def question_format_st (st : ModuleState) (question : String) : String × ModuleState :=
  (question_format question, st)

/-- State-passing form of validation_format; the Python body reads and mutates no module-level binding. -/
def validation_format_st (st : ModuleState) (report : String) : String × ModuleState :=
  (validation_format report, st)

/-- State-passing form of question_generator; the Python body reads and mutates no module-level binding. -/
def question_generator_st (st : ModuleState) (target_file : String) : String × ModuleState :=
  (question_generator target_file, st)

/-- One invocation of one of the three renderers with its string argument. -/
inductive RenderCall where
  | qf (s : String) : RenderCall
  | vf (s : String) : RenderCall
  | qg (s : String) : RenderCall

/-- Apply one renderer invocation to the module state. -/
def applyCall (st : ModuleState) : RenderCall → String × ModuleState
  | RenderCall.qf s => question_format_st st s
  | RenderCall.vf s => validation_format_st st s
  | RenderCall.qg s => question_generator_st st s

/-- Thread the module state through any sequence of renderer invocations. -/
def runCalls (st : ModuleState) : List RenderCall → ModuleState
  | [] => st
  | c :: rest => runCalls (applyCall st c).2 rest

theorem strData_append (a b : String) : (a ++ b).data = a.data ++ b.data := rfl

theorem strAppend_assoc (a b c : String) : a ++ b ++ c = a ++ (b ++ c) := by
  cases a with
  | mk la =>
    cases b with
    | mk lb =>
      cases c with
      | mk lc =>
        show String.mk (la ++ lb ++ lc) = String.mk (la ++ (lb ++ lc))
        rw [List.append_assoc]

theorem concatStr_cons (s : String) (l : List String) : concatStr (s :: l) = s ++ concatStr l := rfl

theorem concatStr_append (a b : List String) : concatStr (a ++ b) = concatStr a ++ concatStr b := by
  induction a with
  | nil =>
    show concatStr b = "" ++ concatStr b
    cases hb : concatStr b with
    | mk lb => rfl
  | cons x a ih =>
    rw [List.cons_append, concatStr_cons, ih, concatStr_cons, strAppend_assoc]

theorem concatStr_data (l : List String) : (concatStr l).data = chainCat (l.map String.data) := by
  induction l with
  | nil => rfl
  | cons s rest ih =>
    rw [concatStr_cons, strData_append, ih, List.map_cons]
    rfl

theorem leadsWith_self (p x : List Char) : leadsWith p (p ++ x) = true := by
  induction p with
  | nil => rfl
  | cons a as ih => simp [leadsWith, ih]

theorem leadsWith_extend (p : List Char) : ∀ x y : List Char, leadsWith p x = true → leadsWith p (x ++ y) = true := by
  induction p with
  | nil => intro x y _; rfl
  | cons a as ih =>
    intro x y h
    cases x with
    | nil => simp [leadsWith] at h
    | cons b bs =>
      simp only [leadsWith, Bool.and_eq_true] at h
      simp only [List.cons_append, leadsWith, Bool.and_eq_true]
      exact ⟨h.1, ih bs y h.2⟩

theorem leadsWith_take (p : List Char) : ∀ t : List Char, leadsWith p t = leadsWith p (t.take p.length) := by
  induction p with
  | nil => intro t; rfl
  | cons a as ih =>
    intro t
    cases t with
    | nil => rfl
    | cons b bs =>
      show (a == b && leadsWith as bs) = leadsWith (a :: as) ((b :: bs).take (as.length + 1))
      rw [List.take_succ_cons]
      show (a == b && leadsWith as bs) = (a == b && leadsWith as (bs.take as.length))
      rw [ih bs]

theorem appearsIn_of_leadsWith (p l : List Char) (h : leadsWith p l = true) : appearsIn p l = true := by
  cases l with
  | nil => exact h
  | cons c rest => simp [appearsIn, h]

theorem appearsIn_append_right (p x y : List Char) (h : appearsIn p y = true) : appearsIn p (x ++ y) = true := by
  induction x with
  | nil => exact h
  | cons c x ih => simp [appearsIn, ih]

theorem mem_chainCat (x : List Char) (ps : List (List Char)) (h : x ∈ ps) : appearsIn x (chainCat ps) = true := by
  induction ps with
  | nil => cases h
  | cons y rest ih =>
    cases h with
    | head =>
      exact appearsIn_of_leadsWith _ _ (leadsWith_self x (chainCat rest))
    | tail _ hm =>
      show appearsIn x (y ++ chainCat rest) = true
      exact appearsIn_append_right x y (chainCat rest) (ih hm)

theorem appearsIn_concatStr (s : String) (l : List String) (h : s ∈ l) : appearsIn s.data (concatStr l).data = true := by
  rw [concatStr_data]
  exact mem_chainCat _ _ (List.mem_map_of_mem _ h)

theorem appearsIn_split (p : List Char) : ∀ x y : List Char, appearsIn p (x ++ y) = true →
    appearsIn p (x ++ y.take (p.length - 1)) = true ∨ appearsIn p y = true := by
  intro x
  induction x with
  | nil => intro y h; right; simpa using h
  | cons c x ih =>
    intro y h
    rw [List.cons_append, appearsIn, Bool.or_eq_true] at h
    cases h with
    | inl hl =>
      left
      apply appearsIn_of_leadsWith
      rw [leadsWith_take] at hl ⊢
      have heq : ((c :: x) ++ y.take (p.length - 1)).take p.length = ((c :: x) ++ y).take p.length := by
        rw [List.take_append_eq_append_take, List.take_append_eq_append_take, List.take_take]
        have hmin : min (p.length - (c :: x).length) (p.length - 1) = p.length - (c :: x).length := by
          apply Nat.min_eq_left
          apply Nat.sub_le_sub_left
          simp [List.length_cons]
        rw [hmin]
      rw [heq]
      exact hl
    | inr hr =>
      cases ih y hr with
      | inl h1 =>
        left
        rw [List.cons_append, appearsIn, Bool.or_eq_true]
        right
        exact h1
      | inr h2 => right; exact h2

theorem noOccAcross_sound (p : List Char) (hp : p ≠ []) :
    ∀ ps : List (List Char), noOccAcross p ps = true → appearsIn p (chainCat ps) = false := by
  intro ps
  induction ps with
  | nil =>
    intro _
    cases p with
    | nil => exact absurd rfl hp
    | cons a as => rfl
  | cons x rest ih =>
    intro h
    rw [noOccAcross, Bool.and_eq_true, Bool.not_eq_true'] at h
    have hrest := ih h.2
    show appearsIn p (x ++ chainCat rest) = false
    cases hq : appearsIn p (x ++ chainCat rest) with
    | false => rfl
    | true =>
      cases appearsIn_split p x (chainCat rest) hq with
      | inl hA => rw [h.1] at hA; exact Bool.noConfusion hA
      | inr hB => rw [hrest] at hB; exact Bool.noConfusion hB

theorem occCount_nil_pat (l : List Char) : occCount [] l = l.length + 1 := by
  induction l with
  | nil => rfl
  | cons c rest ih =>
    show cond (leadsWith [] (c :: rest)) 1 0 + occCount [] rest = rest.length + 1 + 1
    rw [ih]
    show 1 + (rest.length + 1) = rest.length + 1 + 1
    omega

theorem occCount_append_ge (p x y : List Char) : occCount p y ≤ occCount p (x ++ y) := by
  induction x with
  | nil => exact Nat.le_refl _
  | cons c x ih =>
    show occCount p y ≤ cond (leadsWith p (c :: (x ++ y))) 1 0 + occCount p (x ++ y)
    exact Nat.le_trans ih (Nat.le_add_left _ _)

theorem occCount_ge_one (p y : List Char) : 1 ≤ occCount p (p ++ y) := by
  cases p with
  | nil =>
    rw [List.nil_append, occCount_nil_pat]
    exact Nat.le_add_left 1 y.length
  | cons a as =>
    show 1 ≤ cond (leadsWith (a :: as) ((a :: as) ++ y)) 1 0 + occCount (a :: as) (as ++ y)
    rw [leadsWith_self]
    exact Nat.le_add_right 1 _

theorem occCount_two (p : List Char) (hp : p ≠ []) : 2 ≤ occCount p (p ++ p) := by
  cases p with
  | nil => exact absurd rfl hp
  | cons a as =>
    show 2 ≤ cond (leadsWith (a :: as) ((a :: as) ++ (a :: as))) 1 0 + occCount (a :: as) (as ++ (a :: as))
    rw [leadsWith_self]
    have h1 : 1 ≤ occCount (a :: as) (as ++ (a :: as)) := by
      have h2 : 1 ≤ occCount (a :: as) ((a :: as) ++ ([] : List Char)) := occCount_ge_one _ _
      rw [List.append_nil] at h2
      exact Nat.le_trans h2 (occCount_append_ge _ as _)
    show 2 ≤ 1 + occCount (a :: as) (as ++ (a :: as))
    omega

theorem qf_flat (s : String) : question_format s = concatStr (qfFlat s) := by
  show qfA ++ s ++ qfB = concatStr (qfAps ++ (s :: qfBps))
  rw [concatStr_append, concatStr_cons, ← strAppend_assoc]
  rfl

theorem vf_flat (s : String) : validation_format s = concatStr (vfFlat s) := by
  show vfA ++ s ++ vfB = concatStr (vfAps ++ (s :: vfBps))
  rw [concatStr_append, concatStr_cons, ← strAppend_assoc]
  rfl

theorem qg_flat (t : String) : question_generator t = concatStr (qgFlat t) := by
  simp only [question_generator, qgFlat, qgS0, qgS1, qgS2, qgS3, qgS4, qgS5, qgS6, qgS7, qgS8,
    qgS9, qgS10, qgS11, qgS12, qgS13, qgS14, qgS15, concatStr_append, concatStr_cons,
    strAppend_assoc]

theorem strListOf_map_str (qs : List String) : strListOf (qs.map JValue.str) = some qs := by
  induction qs with
  | nil => rfl
  | cons q rest ih =>
    show strListOf (JValue.str q :: rest.map JValue.str) = some (q :: rest)
    rw [strListOf, ih]
    rfl

/-- C2 counterexample: a persisted resource holding the valid JSON document 5 is malformed in the sense of the claim (it is not a sequence of strings), yet get_questions does not return the empty sequence: it returns the parsed number itself, which is not a sequence of strings at all. -/
theorem loader_malformed_cex :
    get_questions (Resource.json (JValue.num 5)) = JValue.num 5 ∧
    isStrList (get_questions (Resource.json (JValue.num 5))) = false :=
  ⟨rfl, rfl⟩

/-- C2 (amended): when the load itself fails (resource absent, unreadable, or not valid JSON) get_questions returns the empty sequence and raises nothing; when json.load succeeds the parsed value is returned unchanged, whatever its shape, so the result is a sequence of strings only when the parsed document is one. -/
theorem loader_fail_open :
    get_questions Resource.absent = JValue.arr [] ∧
    get_questions Resource.unreadable = JValue.arr [] ∧
    get_questions Resource.invalidJson = JValue.arr [] ∧
    ∀ v : JValue, get_questions (Resource.json v) = v :=
  ⟨rfl, rfl, rfl, fun _ => rfl⟩

/-- C3: when the persisted resource holds a valid JSON sequence of N strings, get_questions returns exactly that sequence of N strings, order preserved. -/
theorem loader_success_roundtrip (qs : List String) :
    get_questions (Resource.json (JValue.arr (qs.map JValue.str))) = JValue.arr (qs.map JValue.str) ∧
    toStrings (get_questions (Resource.json (JValue.arr (qs.map JValue.str)))) = some qs ∧
    (qs.map JValue.str).length = qs.length := by
  refine ⟨rfl, ?_, by simp⟩
  show toStrings (JValue.arr (qs.map JValue.str)) = some qs
  rw [toStrings, strListOf_map_str]

/-- C4 counterexample: question_format does not contain its argument exactly once for every argument; feeding the scaffold suffix qfB itself as the question makes it occur at least twice in the output. -/
theorem qf_exactly_once_cex : occCount qfB.data (question_format qfB).data ≠ 1 := by
  have hB : qfB.data ≠ [] := by decide
  have hd : (question_format qfB).data = qfA.data ++ (qfB.data ++ qfB.data) := by
    show ((qfA ++ qfB) ++ qfB).data = qfA.data ++ (qfB.data ++ qfB.data)
    rw [strData_append, strData_append, List.append_assoc]
  have h2 : 2 ≤ occCount qfB.data (question_format qfB).data := by
    rw [hd]
    exact Nat.le_trans (occCount_two qfB.data hB) (occCount_append_ge _ qfA.data _)
  omega

/-- C4 (amended): question_format is the fixed scaffold qfA and qfB with the question substituted at the single designated slot, so the question occurs there verbatim and everything outside the interpolated slot is byte-identical across inputs; the question need not occur exactly once overall, since it may also overlap scaffold text. -/
theorem qf_slot_invariance (s : String) :
    question_format s = qfA ++ s ++ qfB ∧
    appearsIn s.data (question_format s).data = true := by
  refine ⟨rfl, ?_⟩
  rw [qf_flat s]
  apply appearsIn_concatStr
  show s ∈ qfAps ++ (s :: qfBps)
  exact List.mem_append_right _ (List.mem_cons_self _ _)

/-- C5: for every question string, the output of question_format contains the fixed no-vulnerability sentinel phrase as a substring, and contains the question itself verbatim; in particular this holds for the question about MCI decreasing along a path. -/
theorem qf_sentinel_and_question (s : String) :
    appearsIn sentinel.data (question_format s).data = true ∧
    appearsIn s.data (question_format s).data = true := by
  constructor
  · rw [qf_flat s]
    apply appearsIn_concatStr
    show sentinel ∈ qfAps ++ (s :: qfBps)
    exact List.mem_append_right _ (List.mem_cons_of_mem _ (by decide))
  · rw [qf_flat s]
    apply appearsIn_concatStr
    show s ∈ qfAps ++ (s :: qfBps)
    exact List.mem_append_right _ (List.mem_cons_self _ _)

/-- C6: validation_format is the fixed scaffold vfA and vfB with the report substituted at its single labeled slot, so the report appears verbatim there and the portion of the output outside the slot is byte-identical for every input report. -/
theorem vf_single_slot (r : String) :
    validation_format r = vfA ++ r ++ vfB ∧
    appearsIn r.data (validation_format r).data = true := by
  refine ⟨rfl, ?_⟩
  rw [vf_flat r]
  apply appearsIn_concatStr
  show r ∈ vfAps ++ (r :: vfBps)
  exact List.mem_append_right _ (List.mem_cons_self _ _)

/-- C7: validation_format is total, producing an output string for every input, and deterministic: two calls with the same report yield identical output. -/
theorem vf_total_deterministic (s t : String) (h : s = t) :
    validation_format s = validation_format t ∧ ∃ out : String, validation_format s = out :=
  ⟨by rw [h], ⟨validation_format s, rfl⟩⟩

/-- Witness for C7 at a concrete report string. -/
theorem vf_total_deterministic_wit :
    validation_format "test report" = validation_format "test report" ∧
    ∃ out : String, validation_format "test report" = out :=
  vf_total_deterministic "test report" "test report" rfl

/-- C8: the Subject Catalog holds 77 pairwise-distinct identifiers, in the declared order (its enumeration starts with aa_addresses.js and ends with tools/viewkv.js). -/
theorem catalog_invariants :
    questions_generator.Nodup ∧ questions_generator.length = 77 ∧
    questions_generator.head? = some "byteball/ocore/aa_addresses.js" ∧
    questions_generator.getLast? = some "byteball/ocore/tools/viewkv.js" :=
  ⟨by decide, by decide, rfl, by decide⟩

/-- C1 counterexample: the catalog identifier byteball/ocore/archiving. js (with its OCR space) is in the Subject Catalog but never occurs in the output of question_generator for the target byteball/ocore/validation.js, refuting the claim that every catalog identifier occurs verbatim at least once. -/
theorem qg_catalog_missing_cex :
    ("byteball/ocore/archiving. js" ∈ questions_generator) ∧
    appearsIn ("byteball/ocore/archiving. js").data
      (question_generator "byteball/ocore/validation.js").data = false := by
  constructor
  · decide
  · rw [qg_flat, concatStr_data]
    apply noOccAcross_sound _ (by decide)
    decide

/-- C1 (amended): question_generator substitutes the target identifier at every one of its fifteen labeled target-file slots (the output is the fixed segments qgS0 to qgS15 with the target in between), and every Subject Catalog identifier outside the fifteen listed in qgMissing (those differing from the scaffold rendering by an OCR whitespace artifact) occurs verbatim in the output at least once. -/
theorem qg_target_and_catalog (t : String) :
    question_generator t =
      qgS0 ++ t ++ qgS1 ++ t ++ qgS2 ++ t ++ qgS3 ++ t ++ qgS4 ++ t ++ qgS5 ++ t ++ qgS6 ++ t ++
      qgS7 ++ t ++ qgS8 ++ t ++ qgS9 ++ t ++ qgS10 ++ t ++ qgS11 ++ t ++ qgS12 ++ t ++ qgS13 ++
      t ++ qgS14 ++ t ++ qgS15 ∧
    ∀ sf : String, sf ∈ questions_generator → sf ∉ qgMissing →
      appearsIn sf.data (question_generator t).data = true := by
  constructor
  · rfl
  · intro sf hmem hnot
    have hall : (questions_generator.all fun x => decide (x ∈ qgMissing) || decide (x ∈ qgS2ps)) = true := by
      decide
    have h2 := List.all_eq_true.mp hall sf hmem
    rw [Bool.or_eq_true] at h2
    have hin : sf ∈ qgS2ps := by
      cases h2 with
      | inl h3 => exact absurd (of_decide_eq_true h3) hnot
      | inr h3 => exact of_decide_eq_true h3
    rw [qg_flat t]
    apply appearsIn_concatStr
    show sf ∈ qgS0ps ++ (t :: (qgS1ps ++ (t :: (qgS2ps ++ (t :: (qgS3ps ++ (t :: (qgS4ps ++ (t :: (qgS5ps ++ (t :: (qgS6ps ++ (t :: (qgS7ps ++ (t :: (qgS8ps ++ (t :: (qgS9ps ++ (t :: (qgS10ps ++ (t :: (qgS11ps ++ (t :: (qgS12ps ++ (t :: (qgS13ps ++ (t :: (qgS14ps ++ (t :: (qgS15ps))))))))))))))))))))))))))))))
    exact List.mem_append_right _ (List.mem_cons_of_mem _
      (List.mem_append_right _ (List.mem_cons_of_mem _ (List.mem_append_left _ hin))))

/-- Witness for C1 at a concrete target and a concrete catalog identifier. -/
theorem qg_target_and_catalog_wit :
    appearsIn ("byteball/ocore/graph.js").data (question_generator "core/validation.ext").data = true :=
  (qg_target_and_catalog "core/validation.ext").2 "byteball/ocore/graph.js" (by decide) (by decide)

/-- C9: none of the three renderers reads the loaded questions collection: for any two module states differing only in the questions value, each renderer produces byte-identical output on the same input string. -/
theorem renderers_noninterference (q1 q2 : JValue) (cat : List String) (u : String) (s : String) :
    (question_format_st ⟨q1, cat, u⟩ s).1 = (question_format_st ⟨q2, cat, u⟩ s).1 ∧
    (validation_format_st ⟨q1, cat, u⟩ s).1 = (validation_format_st ⟨q2, cat, u⟩ s).1 ∧
    (question_generator_st ⟨q1, cat, u⟩ s).1 = (question_generator_st ⟨q2, cat, u⟩ s).1 :=
  ⟨rfl, rfl, rfl⟩

/-- C10: invoking any of the three renderers, with any argument and any number of times in any order, leaves the module-level state (the questions collection, the catalog and BASE_URL) unchanged. -/
theorem renderers_frame (st : ModuleState) (s : String) (calls : List RenderCall) :
    (question_format_st st s).2 = st ∧
    (validation_format_st st s).2 = st ∧
    (question_generator_st st s).2 = st ∧
    runCalls st calls = st := by
  refine ⟨rfl, rfl, rfl, ?_⟩
  induction calls with
  | nil => rfl
  | cons c rest ih =>
    cases c with
    | qf a => exact ih
    | vf a => exact ih
    | qg a => exact ih
